import Mathlib

/-!
# go-zarinpal: a verification development

A shallow embedding of `main.go` (package `zarinpal`), the client binding of the
Zarinpal payment gateway, followed by theorems about its observable contract.

Modelling conventions

* A Go `string` is a Lean `String`; Go's `len(s)` is the number of bytes of the
  UTF-8 encoding (`String.utf8ByteSize`), whereas `String.length` counts the
  characters (Unicode code points). Go strings that are not valid UTF-8 have no
  counterpart here; the code only measures, compares and concatenates strings.
* A Go `int` is an `Int`; the code performs no arithmetic on it, only comparisons
  and the decimal rendering `strconv.Itoa`.
* A Go `error` is an `Option GoError`, `none` standing for `nil`.
* Named results are a structure holding one field per result; the zero value of
  each result is the value it has when the function returns before assigning it.
* The standard library and the network are not part of the repository. The pure
  library functions (`json.Marshal`, the argument check of `http.NewRequest`,
  `json.Unmarshal` at each response type) are the fields of `Lib`. What a call of
  `client.Do` does is a `Transport`, a state-passing function: the zero-value
  `http.Client` together with the network behind it. A `World` carries the state
  of the network together with the log of the requests handed to `client.Do`.
  One call of `client.Do` may comprise several HTTP exchanges, because the client
  follows redirects; `httpClientDo` builds such a transport from a round tripper.
-/

namespace GoZarinpal

/-! ## Go values -/

/-- Go error values: the ones made by `errors.New` in this package, and the ones
made by library code (encoding/json, net/http, io). -/
inductive GoError where
  | errorString (s : String)
  | foreign (pkg : String) (s : String)
deriving DecidableEq, Repr

/-- The method `Error()` of a Go error: its message. -/
def GoError.Error : GoError → String
  | .errorString s => s
  | .foreign _ s => s

/-- Go's `errors.New`. -/
def errorsNew (text : String) : GoError := .errorString text

/-- Go's builtin `len` on a string: the number of bytes. -/
def len (s : String) : Nat := s.utf8ByteSize

/-- Go's `strconv.Itoa`: the base-10 text of `i`, with a minus sign when negative. -/
def Itoa (i : Int) : String :=
  match i with
  | .ofNat n => Nat.repr n
  | .negSucc n => "-" ++ Nat.repr (n + 1)

/-- A value of Go type `any` decoded from JSON, kept as its JSON text. -/
structure Any where
  raw : String
deriving DecidableEq, Repr

/-! ## The data model of `main.go` -/

structure Zarinpal where
  MerchantID : String
  Sandbox : Bool
  APIEndpoint : String
  PaymentEndpoint : String
deriving DecidableEq, Repr

structure paymentRequestReqBody where
  MerchantID : String
  Amount : Int
  Description : String
  CallbackURL : String
deriving DecidableEq, Repr

structure paymentRequestRespData where
  Authority : String
  Fee : Int
  FeeType : String
  Status : Int
  Message : String
deriving DecidableEq, Repr

structure paymentRequestResp where
  Data : paymentRequestRespData
  Errors : List Any
deriving DecidableEq, Repr

structure paymentVerificationReqBody where
  MerchantID : String
  Amount : Int
  Authority : String
deriving DecidableEq, Repr

/-- The field `RefID` has Go type `json.Number`, a string type holding the
numeral as it stands in the response. -/
structure paymentVerificationRespData where
  Status : Int
  Message : String
  CardHash : String
  CardPan : String
  RefID : String
  FeeType : String
  Fee : Int
deriving DecidableEq, Repr

structure paymentVerificationResp where
  Data : paymentVerificationRespData
  Errors : List Any
deriving DecidableEq, Repr

structure unverifiedTransactionsReqBody where
  MerchantID : String
deriving DecidableEq, Repr

structure UnverifiedAuthority where
  Authority : String
  Amount : Int
  CallbackURL : String
  Referer : String
  Date : String
deriving DecidableEq, Repr

structure unverifiedTransactionsRespData where
  Status : Int
  Message : String
  Authorities : List UnverifiedAuthority
deriving DecidableEq, Repr

structure unverifiedTransactionsResp where
  Data : unverifiedTransactionsRespData
deriving DecidableEq, Repr

structure transactionInquiryReqBody where
  MerchantID : String
  Authority : String
deriving DecidableEq, Repr

/-- The field `Code` is the JSON field "status", `Status` the JSON field "code". -/
structure transactionInquiryRespData where
  Code : String
  Status : Int
  Message : String
deriving DecidableEq, Repr

structure transactionInquiryResp where
  Data : transactionInquiryRespData
  Message : String
  Errors : List Any
deriving DecidableEq, Repr

structure reverseTransactionRespData where
  Status : Int
  Message : String
deriving DecidableEq, Repr

structure reverseTransactionResp where
  Data : reverseTransactionRespData
  Errors : List Any
deriving DecidableEq, Repr

/-! ## Construction -/

/-- The function `New` of `main.go`: the pair (client, error). -/
def New (merchantID : String) (sandbox : Bool) : Option Zarinpal × Option GoError :=
  if len merchantID ≠ 36 then
    (none, some (errorsNew "MerchantID must be 36 characters"))
  else
    let apiEndpoint := "https://api.zarinpal.com/pg/v4/payment/"
    let paymentEndpoint := "https://payment.zarinpal.com/pg/StartPay/"
    let (apiEndpoint, paymentEndpoint) :=
      if sandbox = true then
        ("https://sandbox.zarinpal.com/pg/v4/payment/", "https://sandbox.zarinpal.com/pg/StartPay/")
      else
        (apiEndpoint, paymentEndpoint)
    (some { MerchantID := merchantID, Sandbox := sandbox,
            APIEndpoint := apiEndpoint, PaymentEndpoint := paymentEndpoint }, none)

/-! ## The outside world: library functions and the network -/

/-- The request that `client.Do` receives. -/
structure HTTPRequest where
  Method : String
  URL : String
  Header : List (String × String)
  Body : String
deriving DecidableEq, Repr

/-- The method `Set` of `http.Header`: the entries of the key are replaced by the one value. -/
def HeaderSet (h : List (String × String)) (key value : String) : List (String × String) :=
  h.filter (fun kv => kv.1 ≠ key) ++ [(key, value)]

/-- The value `client.Do` hands back when the call succeeds. Of the body only what
`ioutil.ReadAll` makes of it matters: the bytes read, or a read error. -/
structure HTTPResponse where
  StatusCode : Int
  Header : List (String × String) := []
  Body : Except GoError String

/-- The value behind the parameter `data interface{}` of `request`: one of the four
request structs the operations pass. -/
inductive ReqData where
  | paymentRequest (b : paymentRequestReqBody)
  | paymentVerification (b : paymentVerificationReqBody)
  | unverifiedTransactions (b : unverifiedTransactionsReqBody)
  | transactionInquiry (b : transactionInquiryReqBody)
deriving DecidableEq, Repr

/-- The pure functions of the Go standard library that `request` calls. They are
taken as parameters: `Marshal` is `json.Marshal`; `requestError method url` is the
error, if any, with which `http.NewRequest` turns down the method or the URL; each
`Unmarshal…` is `json.Unmarshal` of a body into a zero-valued response struct. -/
structure Lib where
  Marshal : ReqData → Except GoError String
  requestError : String → String → Option GoError
  UnmarshalPaymentRequest : String → Except GoError paymentRequestResp
  UnmarshalPaymentVerification : String → Except GoError paymentVerificationResp
  UnmarshalUnverifiedTransactions : String → Except GoError unverifiedTransactionsResp
  UnmarshalTransactionInquiry : String → Except GoError transactionInquiryResp
  UnmarshalReverseTransaction : String → Except GoError reverseTransactionResp

/-- What a call of `client.Do` on the zero-value `http.Client` does: from the state of
the network and a request, the outcome of the call and the next state. The call is
taken whole; it may comprise several HTTP exchanges, see `httpClientDo`. The same
type describes a round tripper, one HTTP exchange. -/
abbrev Transport (σ : Type) := σ → HTTPRequest → Except GoError HTTPResponse × σ

/-- The world an operation runs in: the state of the network, and the log of the
requests handed to `client.Do` so far, oldest first. -/
structure World (σ : Type) where
  net : σ
  sent : List HTTPRequest
deriving DecidableEq

/-- Go's `http.NewRequest(method, url, body)`: an error, or the request with that
method, URL and body and no header yet. -/
def NewRequest (lib : Lib) (method url body : String) : Except GoError HTTPRequest :=
  match lib.requestError method url with
  | some err => .error err
  | none => .ok { Method := method, URL := url, Header := [], Body := body }

/-- The call `client.Do(req)`: the transport is run once on the request, and the
request is recorded in the log of the calls of `client.Do`. -/
def clientDo {σ : Type} (t : Transport σ) (w : World σ) (req : HTTPRequest) :
    Except GoError HTTPResponse × World σ :=
  ((t w.net req).1, { net := (t w.net req).2, sent := w.sent ++ [req] })

/-- The decision of `http.Client.Do` after an HTTP exchange, from the requests made
so far (oldest first) and the response to the last: `none` when the response goes
back to the caller, otherwise the request the client issues next, or the error it
gives up with. It is library code, taken as a parameter. -/
abbrev Redirect := List HTTPRequest → HTTPResponse → Option (Except GoError HTTPRequest)

/-- The loop of `http.Client.Do` over a round tripper `rt`: an exchange at a time,
until a round-trip error, a response that is not followed, or an error of the
redirect decision. `fuel` bounds the number of exchanges. -/
def clientLoop {τ : Type} (redirect : Redirect) (rt : Transport τ) :
    Nat → List HTTPRequest → τ → HTTPRequest → Except GoError HTTPResponse × τ
  | 0, _, n, _ => (.error (.foreign "net/http" "stopped after 10 redirects"), n)
  | fuel + 1, via, n, req =>
    match rt n req with
    | (.error err, n1) => (.error err, n1)
    | (.ok resp, n1) =>
      match redirect (via ++ [req]) resp with
      | none => (.ok resp, n1)
      | some (.error err) => (.error err, n1)
      | some (.ok next) => clientLoop redirect rt fuel (via ++ [req]) n1 next

/-- The method `Do` of the zero-value `http.Client` over a round tripper: the loop
above, which the default redirect check ends after ten exchanges. -/
def httpClientDo {τ : Type} (redirect : Redirect) (rt : Transport τ) : Transport τ :=
  fun n req => clientLoop redirect rt 10 [] n req

/-! ## The shared request helper -/

/-- The method `request` of `main.go`. The Go function fills `res` and returns an
error; here it returns the error or the filled response. `unmarshal` is
`json.Unmarshal` at the type of `res`. The deferred `resp.Body.Close()` has no
result the code looks at and is left out. -/
def request {σ ρ : Type} (lib : Lib) (t : Transport σ) (unmarshal : String → Except GoError ρ)
    (_zarinpal : Zarinpal) (w : World σ) (endpoint : String) (data : ReqData) :
    Except GoError ρ × World σ :=
  match lib.Marshal data with
  | .error err => (.error err, w)
  | .ok reqBytes =>
    match NewRequest lib "POST" endpoint reqBytes with
    | .error err => (.error err, w)
    | .ok req =>
      let req := { req with Header := HeaderSet req.Header "Content-Type" "application/json" }
      match clientDo t w req with
      | (.error err, w1) => (.error err, w1)
      | (.ok resp, w1) =>
        match resp.Body with
        | .error err => (.error err, w1)
        | .ok body =>
          match unmarshal body with
          | .error _ => (.error (errorsNew "zarinpal invalid json response"), w1)
          | .ok res => (.ok res, w1)

/-! ## The five operations -/

/-- The named results of `NewPayment`. -/
structure NewPaymentResult where
  paymentURL : String
  authority : String
  statusCode : Int
  err : Option GoError
deriving DecidableEq, Repr

/-- The named results of `VerifyTransaction`. -/
structure VerifyTransactionResult where
  verified : Bool
  refID : String
  statusCode : Int
  err : Option GoError
deriving DecidableEq, Repr

/-- The named results of `UnverifiedTransactions`. -/
structure UnverifiedTransactionsResult where
  authorities : List UnverifiedAuthority
  statusCode : Int
  err : Option GoError
deriving DecidableEq, Repr

/-- The named results of `TransactionInquiry`. -/
structure TransactionInquiryResult where
  inquiry : String
  statusCode : Int
  err : Option GoError
deriving DecidableEq, Repr

/-- The named results of `ReverseTransaction`. -/
structure ReverseTransactionResult where
  statusCode : Int
  err : Option GoError
deriving DecidableEq, Repr

/-- The method `NewPayment` of `main.go`. -/
def NewPayment {σ : Type} (lib : Lib) (t : Transport σ) (zarinpal : Zarinpal) (w : World σ)
    (amount : Int) (callbackURL description : String) : NewPaymentResult × World σ :=
  if amount < 1 then
    ({ paymentURL := "", authority := "", statusCode := 0,
       err := some (errorsNew "amount must be a positive number") }, w)
  else if callbackURL = "" then
    ({ paymentURL := "", authority := "", statusCode := 0,
       err := some (errorsNew "callbackURL should not be empty") }, w)
  else if description = "" then
    ({ paymentURL := "", authority := "", statusCode := 0,
       err := some (errorsNew "description should not be empty") }, w)
  else
    let paymentRequest : paymentRequestReqBody :=
      { MerchantID := zarinpal.MerchantID, Amount := amount,
        Description := description, CallbackURL := callbackURL }
    match request lib t lib.UnmarshalPaymentRequest zarinpal w
        (zarinpal.APIEndpoint ++ "request.json") (.paymentRequest paymentRequest) with
    | (.error err, w1) =>
      ({ paymentURL := "", authority := "", statusCode := 0, err := some err }, w1)
    | (.ok resp, w1) =>
      let statusCode := resp.Data.Status
      if resp.Data.Status = 100 then
        ({ paymentURL := zarinpal.PaymentEndpoint ++ resp.Data.Authority,
           authority := resp.Data.Authority, statusCode := statusCode, err := none }, w1)
      else
        ({ paymentURL := "", authority := "", statusCode := statusCode,
           err := some (errorsNew (Itoa resp.Data.Status)) }, w1)

/-- The method `VerifyTransaction` of `main.go`. -/
def VerifyTransaction {σ : Type} (lib : Lib) (t : Transport σ) (zarinpal : Zarinpal)
    (w : World σ) (amount : Int) (authority : String) : VerifyTransactionResult × World σ :=
  if amount ≤ 0 then
    ({ verified := false, refID := "", statusCode := 0,
       err := some (errorsNew "amount must be a positive number") }, w)
  else if authority = "" then
    ({ verified := false, refID := "", statusCode := 0,
       err := some (errorsNew "authority should not be empty") }, w)
  else
    let paymentVerification : paymentVerificationReqBody :=
      { MerchantID := zarinpal.MerchantID, Amount := amount, Authority := authority }
    match request lib t lib.UnmarshalPaymentVerification zarinpal w
        (zarinpal.APIEndpoint ++ "verify.json") (.paymentVerification paymentVerification) with
    | (.error err, w1) =>
      ({ verified := false, refID := "", statusCode := 0, err := some err }, w1)
    | (.ok resp, w1) =>
      let statusCode := resp.Data.Status
      if resp.Data.Status = 100 then
        ({ verified := true, refID := resp.Data.RefID, statusCode := statusCode, err := none }, w1)
      else
        ({ verified := false, refID := "", statusCode := statusCode,
           err := some (errorsNew (Itoa resp.Data.Status)) }, w1)

/-- The method `UnverifiedTransactions` of `main.go`. -/
def UnverifiedTransactions {σ : Type} (lib : Lib) (t : Transport σ) (zarinpal : Zarinpal)
    (w : World σ) : UnverifiedTransactionsResult × World σ :=
  let unverifiedTransactions : unverifiedTransactionsReqBody :=
    { MerchantID := zarinpal.MerchantID }
  match request lib t lib.UnmarshalUnverifiedTransactions zarinpal w
      (zarinpal.APIEndpoint ++ "unVerified.json")
      (.unverifiedTransactions unverifiedTransactions) with
  | (.error err, w1) => ({ authorities := [], statusCode := 0, err := some err }, w1)
  | (.ok resp, w1) =>
    if resp.Data.Status = 100 then
      ({ authorities := resp.Data.Authorities, statusCode := resp.Data.Status, err := none }, w1)
    else
      ({ authorities := [], statusCode := 0,
         err := some (errorsNew (Itoa resp.Data.Status)) }, w1)

/-- The method `TransactionInquiry` of `main.go`. -/
def TransactionInquiry {σ : Type} (lib : Lib) (t : Transport σ) (zarinpal : Zarinpal)
    (w : World σ) (authority : String) : TransactionInquiryResult × World σ :=
  if authority = "" then
    ({ inquiry := "", statusCode := 0,
       err := some (errorsNew "authority should not be empty") }, w)
  else
    let transactionInquiry : transactionInquiryReqBody :=
      { MerchantID := zarinpal.MerchantID, Authority := authority }
    match request lib t lib.UnmarshalTransactionInquiry zarinpal w
        (zarinpal.APIEndpoint ++ "inquiry.json") (.transactionInquiry transactionInquiry) with
    | (.error err, w1) => ({ inquiry := "", statusCode := 0, err := some err }, w1)
    | (.ok resp, w1) =>
      if resp.Data.Status = 100 then
        ({ inquiry := resp.Data.Code, statusCode := resp.Data.Status, err := none }, w1)
      else
        ({ inquiry := "", statusCode := 0,
           err := some (errorsNew (Itoa resp.Data.Status)) }, w1)

/-- The method `ReverseTransaction` of `main.go`. -/
def ReverseTransaction {σ : Type} (lib : Lib) (t : Transport σ) (zarinpal : Zarinpal)
    (w : World σ) (authority : String) : ReverseTransactionResult × World σ :=
  if authority = "" then
    ({ statusCode := 0, err := some (errorsNew "authority should not be empty") }, w)
  else
    let transactionInquiry : transactionInquiryReqBody :=
      { MerchantID := zarinpal.MerchantID, Authority := authority }
    match request lib t lib.UnmarshalReverseTransaction zarinpal w
        (zarinpal.APIEndpoint ++ "reverse.json") (.transactionInquiry transactionInquiry) with
    | (.error err, w1) => ({ statusCode := 0, err := some err }, w1)
    | (.ok resp, w1) =>
      if resp.Data.Status = 100 then
        ({ statusCode := resp.Data.Status, err := none }, w1)
      else
        ({ statusCode := 0, err := some (errorsNew (Itoa resp.Data.Status)) }, w1)

/-! ## Vocabulary of the statements, concrete inputs and test doubles -/

/-- A merchant identifier of 36 ASCII characters, hence of 36 bytes. -/
def merchantX36 : String := "xxxxxxxxxxxxxxxxxxxxxxxxxxxxxxxxxxxx"

/-- Every character of the string is an ASCII character. -/
def IsASCII (s : String) : Prop := ∀ c ∈ s.data, c.val ≤ 127

/-- The client `New merchantX36 true` returns. -/
def sandboxClient : Zarinpal :=
  { MerchantID := merchantX36, Sandbox := true,
    APIEndpoint := "https://sandbox.zarinpal.com/pg/v4/payment/",
    PaymentEndpoint := "https://sandbox.zarinpal.com/pg/StartPay/" }

/-- An authority token of 36 characters. -/
def authorityA : String := "A00000000000000000000000000000123456"

/-- A stand-in for `json.Marshal`: the fields of the struct by their JSON names, in order. -/
def mockMarshal : ReqData → Except GoError String
  | .paymentRequest b =>
    .ok ("merchant_id=" ++ b.MerchantID ++ " amount=" ++ Itoa b.Amount ++
      " description=" ++ b.Description ++ " callback_url=" ++ b.CallbackURL)
  | .paymentVerification b =>
    .ok ("merchant_id=" ++ b.MerchantID ++ " amount=" ++ Itoa b.Amount ++
      " authority=" ++ b.Authority)
  | .unverifiedTransactions b => .ok ("merchant_id=" ++ b.MerchantID)
  | .transactionInquiry b =>
    .ok ("merchant_id=" ++ b.MerchantID ++ " authority=" ++ b.Authority)

/-- The error a stand-in decoder answers to a body it does not know. -/
def mockSyntaxError : GoError := .foreign "encoding/json" "invalid character"

/-- A record of the list of unverified transactions. -/
def unverifiedA : UnverifiedAuthority :=
  { Authority := authorityA, Amount := 1000, CallbackURL := "https://example.com/cb",
    Referer := "", Date := "2024-01-01 10:00:00" }

/-- A second record of the list of unverified transactions. -/
def unverifiedB : UnverifiedAuthority :=
  { Authority := "A00000000000000000000000000000654321", Amount := 2500,
    CallbackURL := "https://example.com/cb", Referer := "", Date := "2024-01-02 11:30:00" }

/-- A stand-in for the library: every request is accepted; the decoders know two
bodies, "code 100" (a success envelope) and "code -9" (a failure envelope whose
other fields are absent), and report a syntax error on every other body. -/
def mockLib : Lib where
  Marshal := mockMarshal
  requestError := fun _ _ => none
  UnmarshalPaymentRequest := fun body =>
    if body = "code 100" then
      .ok { Data := { Authority := authorityA, Fee := 0, FeeType := "Payer", Status := 100,
                      Message := "" }, Errors := [] }
    else if body = "code -9" then
      .ok { Data := { Authority := "", Fee := 0, FeeType := "", Status := -9, Message := "" },
            Errors := [] }
    else .error mockSyntaxError
  UnmarshalPaymentVerification := fun body =>
    if body = "code 100" then
      .ok { Data := { Status := 100, Message := "", CardHash := "", CardPan := "",
                      RefID := "123456789012345678901234567890", FeeType := "Payer",
                      Fee := 0 }, Errors := [] }
    else if body = "code -9" then
      .ok { Data := { Status := -9, Message := "", CardHash := "", CardPan := "", RefID := "",
                      FeeType := "", Fee := 0 }, Errors := [] }
    else .error mockSyntaxError
  UnmarshalUnverifiedTransactions := fun body =>
    if body = "code 100" then
      .ok { Data := { Status := 100, Message := "", Authorities := [unverifiedA, unverifiedB] } }
    else if body = "code -9" then
      .ok { Data := { Status := -9, Message := "", Authorities := [] } }
    else .error mockSyntaxError
  UnmarshalTransactionInquiry := fun body =>
    if body = "code 100" then
      .ok { Data := { Code := "PAID", Status := 100, Message := "" }, Message := "",
            Errors := [] }
    else if body = "code -9" then
      .ok { Data := { Code := "", Status := -9, Message := "" }, Message := "", Errors := [] }
    else .error mockSyntaxError
  UnmarshalReverseTransaction := fun body =>
    if body = "code 100" then .ok { Data := { Status := 100, Message := "" }, Errors := [] }
    else if body = "code -9" then .ok { Data := { Status := -9, Message := "" }, Errors := [] }
    else .error mockSyntaxError

/-- A stand-in for the network: every call of `client.Do` succeeds with HTTP status
200 and the given body; the state counts the calls. -/
def mockGateway (body : String) : Transport Nat :=
  fun n _ => (.ok { StatusCode := 200, Body := .ok body }, n + 1)

/-- A network that is down: every call of `client.Do` fails; the state counts the
attempts. -/
def mockUnreachable : Transport Nat :=
  fun n _ => (.error (.foreign "net/http" "dial tcp: connection refused"), n + 1)

/-- The world before the first request. -/
def world0 : World Nat := { net := 0, sent := [] }

/-- The POST request `request` builds from an endpoint and the marshalled body. -/
def postJSON (endpoint body : String) : HTTPRequest :=
  { Method := "POST", URL := endpoint, Header := [("Content-Type", "application/json")],
    Body := body }

/-- The body `mockMarshal` gives for the payment of the scenario. -/
def scenarioBody : String :=
  "merchant_id=" ++ merchantX36 ++
    " amount=1000 description=order #1 callback_url=https://example.com/cb"

/-- The call of `client.Do` in `request lib t unmarshal z w endpoint data` delivers a body
that `unmarshal` cannot decode: marshalling and `http.NewRequest` succeed, the
transport answers, the body is read in full, and `unmarshal` reports an error. -/
def MalformedBody {σ ρ : Type} (lib : Lib) (t : Transport σ)
    (unmarshal : String → Except GoError ρ) (w : World σ) (endpoint : String)
    (data : ReqData) : Prop :=
  ∃ (bytes : String) (resp : HTTPResponse) (body : String) (e : GoError),
    lib.Marshal data = .ok bytes ∧ lib.requestError "POST" endpoint = none ∧
    (t w.net (postJSON endpoint bytes)).1 = .ok resp ∧ resp.Body = .ok body ∧
    unmarshal body = .error e

/-- What `request` makes of the outcome of `client.Do`: the transport error, the
read error, the fixed invalid-JSON error, or the decoded response. -/
def readResponse {ρ : Type} (unmarshal : String → Except GoError ρ) :
    Except GoError HTTPResponse → Except GoError ρ
  | .error err => .error err
  | .ok resp =>
    match resp.Body with
    | .error err => .error err
    | .ok body =>
      match unmarshal body with
      | .error _ => .error (errorsNew "zarinpal invalid json response")
      | .ok res => .ok res

/-- Two facts of the Go standard library about the values this package passes to it:
`json.Marshal` succeeds on the request structs, which hold only strings and
integers, and `http.NewRequest` accepts the method POST with each URL made of a base
URL of `New` and one of the five paths. -/
def LibFaithful (lib : Lib) : Prop :=
  (∀ data : ReqData, ∃ bytes : String, lib.Marshal data = .ok bytes) ∧
  (∀ base ∈ ["https://api.zarinpal.com/pg/v4/payment/",
             "https://sandbox.zarinpal.com/pg/v4/payment/"],
    ∀ path ∈ ["request.json", "verify.json", "unVerified.json", "inquiry.json",
              "reverse.json"],
      lib.requestError "POST" (base ++ path) = none)

/-- The URL the gateway of the redirect scenario has moved to. -/
def movedURL : String := "https://sandbox.zarinpal.com/pg/v4/payment/moved/request.json"

/-- A stand-in for the redirect decision of `net/http`, exact on the statuses the
scenarios use: a response of status 307 or 308 with a Location header is followed
by sending the last request again, with its method, header and body, to the
Location, with a Referer header naming the URL just asked; a response of status 200
goes back to the caller. The statuses 301, 302 and 303, which `net/http` follows
with a GET request, are left out: here they go back to the caller as well. -/
def mockRedirect : Redirect := fun via resp =>
  if resp.StatusCode = 307 ∨ resp.StatusCode = 308 then
    match via.getLast?, resp.Header.lookup "Location" with
    | some last, some loc =>
      some (.ok { last with URL := loc, Header := HeaderSet last.Header "Referer" last.URL })
    | _, _ => none
  else none

/-- A gateway that has moved: a request to `movedURL` is answered with status 200 and
the given body, a request to any other URL with status 307 and the Location
`movedURL`. The state is the log of the HTTP exchanges, oldest first. -/
def mockMovedGateway (body : String) : Transport (List HTTPRequest) :=
  fun log req =>
    (if req.URL = movedURL then .ok { StatusCode := 200, Body := .ok body }
     else .ok { StatusCode := 307, Header := [("Location", movedURL)], Body := .ok "" },
     log ++ [req])

/-- A gateway that has not moved: every request is answered with status 200 and the
given body. The state is the log of the HTTP exchanges, oldest first. -/
def mockDirectGateway (body : String) : Transport (List HTTPRequest) :=
  fun log req => (.ok { StatusCode := 200, Body := .ok body }, log ++ [req])

/-- The request the client makes when it follows the redirect of the scenario. -/
def scenarioRedirected : HTTPRequest :=
  { Method := "POST", URL := movedURL,
    Header := [("Content-Type", "application/json"),
               ("Referer", "https://sandbox.zarinpal.com/pg/v4/payment/request.json")],
    Body := scenarioBody }

/-! ## Construction: theorems -/

/-- On a string of ASCII characters Go's `len` is the number of characters. -/
theorem len_eq_length_of_ascii (s : String) (h : IsASCII s) : len s = s.length := by
  obtain ⟨l⟩ := s
  unfold IsASCII at h
  simp only [len, String.length]
  induction l with
  | nil => rfl
  | cons c cs ih =>
    have hc : c.utf8Size = 1 := by simp [Char.utf8Size, h c (List.mem_cons_self _ _)]
    have hcs := ih (fun d hd => h d (List.mem_cons_of_mem _ hd))
    simp [String.utf8ByteSize, String.utf8ByteSize.go] at hcs ⊢
    omega

/-- What `New` returns, by cases on the byte length of the identifier. -/
theorem New_eq (m : String) (s : Bool) :
    New m s =
      if len m ≠ 36 then (none, some (errorsNew "MerchantID must be 36 characters"))
      else (some { MerchantID := m, Sandbox := s,
                   APIEndpoint := if s = true then "https://sandbox.zarinpal.com/pg/v4/payment/"
                                  else "https://api.zarinpal.com/pg/v4/payment/",
                   PaymentEndpoint := if s = true then "https://sandbox.zarinpal.com/pg/StartPay/"
                                      else "https://payment.zarinpal.com/pg/StartPay/" }, none) := by
  unfold New
  cases s <;> simp

/-- C1: for every merchant identifier `m` and sandbox flag `s`, `New m s` fails (an
error and no client) if and only if the length of `m` is not 36, and it succeeds (a
client and no error) if and only if that length is 36. The length is the one the
code measures with Go's `len`, which counts the bytes of the string; the error is
the one with message "MerchantID must be 36 characters". When every character of `m`
is ASCII, the length is the number of characters of `m`. -/
theorem New_fails_iff_len_ne_36 (m : String) (s : Bool) :
    (((New m s).1 = none ∧ (New m s).2 ≠ none) ↔ len m ≠ 36) ∧
    (((New m s).1 ≠ none ∧ (New m s).2 = none) ↔ len m = 36) ∧
    ((New m s).2 ≠ none ↔
      (New m s).2 = some (errorsNew "MerchantID must be 36 characters")) ∧
    (IsASCII m → (((New m s).1 = none ∧ (New m s).2 ≠ none) ↔ m.length ≠ 36)) := by
  have hascii : IsASCII m → len m = m.length := len_eq_length_of_ascii m
  rw [New_eq]
  by_cases h : len m = 36
  · simp only [h, ne_eq, not_true_eq_false, if_false]
    refine ⟨by simp, by simp, by simp, fun ha => ?_⟩
    rw [← hascii ha, h]; simp
  · simp only [ne_eq, h, not_false_eq_true, if_true]
    refine ⟨by simp, by simp, by simp, fun ha => ?_⟩
    rw [← hascii ha]; simp [h]

/-- C1 at concrete inputs: the 36 ASCII characters are accepted under
either flag, the empty identifier is rejected. -/
theorem New_fails_iff_len_ne_36_witness :
    ((New merchantX36 true).1 ≠ none ∧ (New merchantX36 true).2 = none) ∧
    ((New "" false).1 = none ∧ (New "" false).2 ≠ none) :=
  ⟨(New_fails_iff_len_ne_36 merchantX36 true).2.1.mpr (by decide),
   (New_fails_iff_len_ne_36 "" false).1.mpr (by decide)⟩

/-- C6: for every merchant identifier `m` of length 36, as Go's `len` measures it, and
every flag `s`, `New m s` returns, with no error, a client with `MerchantID = m` and
`Sandbox = s` whose endpoints depend on `s` alone: the sandbox pair when `s` is
true, the production pair when `s` is false. -/
theorem New_client_fields (m : String) (s : Bool) (h : len m = 36) :
    ∃ z : Zarinpal, New m s = (some z, none) ∧ z.MerchantID = m ∧ z.Sandbox = s ∧
      (s = true → z.APIEndpoint = "https://sandbox.zarinpal.com/pg/v4/payment/" ∧
        z.PaymentEndpoint = "https://sandbox.zarinpal.com/pg/StartPay/") ∧
      (s = false → z.APIEndpoint = "https://api.zarinpal.com/pg/v4/payment/" ∧
        z.PaymentEndpoint = "https://payment.zarinpal.com/pg/StartPay/") := by
  rw [New_eq]
  cases s <;> simp [h]

/-- C6 at the identifier of 36 letters x, under the sandbox flag. -/
theorem New_client_fields_witness :
    len merchantX36 = 36 ∧
    (∃ z : Zarinpal, New merchantX36 true = (some z, none) ∧ z.MerchantID = merchantX36 ∧
      z.Sandbox = true ∧
      (true = true → z.APIEndpoint = "https://sandbox.zarinpal.com/pg/v4/payment/" ∧
        z.PaymentEndpoint = "https://sandbox.zarinpal.com/pg/StartPay/") ∧
      (true = false → z.APIEndpoint = "https://api.zarinpal.com/pg/v4/payment/" ∧
        z.PaymentEndpoint = "https://payment.zarinpal.com/pg/StartPay/")) :=
  ⟨by decide, New_client_fields merchantX36 true (by decide)⟩

/-! ## The operations, by the outcome of the request helper -/

/-- After valid arguments, when `request` fails, `NewPayment` returns its error and zero values. -/
theorem NewPayment_request_error {σ : Type} (lib : Lib) (t : Transport σ) (z : Zarinpal)
    (w w1 : World σ)
    (amount : Int) (callbackURL description : String) (err : GoError)
    (hamount : 1 ≤ amount) (hcallback : callbackURL ≠ "") (hdescription : description ≠ "")
    (hreq : request lib t lib.UnmarshalPaymentRequest z w (z.APIEndpoint ++ "request.json")
      (.paymentRequest { MerchantID := z.MerchantID, Amount := amount,
                         Description := description, CallbackURL := callbackURL }) = (.error err, w1)) :
    NewPayment lib t z w amount callbackURL description =
      ({ paymentURL := "", authority := "", statusCode := 0, err := some err }, w1) := by
  unfold NewPayment
  rw [if_neg (not_lt.mpr hamount), if_neg hcallback, if_neg hdescription]
  simp only [hreq]

/-- After valid arguments, when `request` decodes a response, `NewPayment` branches on its status code. -/
theorem NewPayment_request_ok {σ : Type} (lib : Lib) (t : Transport σ) (z : Zarinpal)
    (w w1 : World σ)
    (amount : Int) (callbackURL description : String) (resp : paymentRequestResp)
    (hamount : 1 ≤ amount) (hcallback : callbackURL ≠ "") (hdescription : description ≠ "")
    (hreq : request lib t lib.UnmarshalPaymentRequest z w (z.APIEndpoint ++ "request.json")
      (.paymentRequest { MerchantID := z.MerchantID, Amount := amount,
                         Description := description, CallbackURL := callbackURL }) = (.ok resp, w1)) :
    NewPayment lib t z w amount callbackURL description =
      if resp.Data.Status = 100 then
        ({ paymentURL := z.PaymentEndpoint ++ resp.Data.Authority,
             authority := resp.Data.Authority, statusCode := resp.Data.Status, err := none }, w1)
      else
        ({ paymentURL := "", authority := "", statusCode := resp.Data.Status,
             err := some (errorsNew (Itoa resp.Data.Status)) }, w1) := by
  unfold NewPayment
  rw [if_neg (not_lt.mpr hamount), if_neg hcallback, if_neg hdescription]
  simp only [hreq]

/-- After valid arguments, when `request` fails, `VerifyTransaction` returns its error and zero values. -/
theorem VerifyTransaction_request_error {σ : Type} (lib : Lib) (t : Transport σ) (z : Zarinpal)
    (w w1 : World σ)
    (amount : Int) (authority : String) (err : GoError)
    (hamount : 0 < amount) (hauthority : authority ≠ "")
    (hreq : request lib t lib.UnmarshalPaymentVerification z w (z.APIEndpoint ++ "verify.json")
      (.paymentVerification { MerchantID := z.MerchantID, Amount := amount,
                              Authority := authority }) = (.error err, w1)) :
    VerifyTransaction lib t z w amount authority =
      ({ verified := false, refID := "", statusCode := 0, err := some err }, w1) := by
  unfold VerifyTransaction
  rw [if_neg (not_le.mpr hamount), if_neg hauthority]
  simp only [hreq]

/-- After valid arguments, when `request` decodes a response, `VerifyTransaction` branches on its status code. -/
theorem VerifyTransaction_request_ok {σ : Type} (lib : Lib) (t : Transport σ) (z : Zarinpal)
    (w w1 : World σ)
    (amount : Int) (authority : String) (resp : paymentVerificationResp)
    (hamount : 0 < amount) (hauthority : authority ≠ "")
    (hreq : request lib t lib.UnmarshalPaymentVerification z w (z.APIEndpoint ++ "verify.json")
      (.paymentVerification { MerchantID := z.MerchantID, Amount := amount,
                              Authority := authority }) = (.ok resp, w1)) :
    VerifyTransaction lib t z w amount authority =
      if resp.Data.Status = 100 then
        ({ verified := true, refID := resp.Data.RefID, statusCode := resp.Data.Status,
             err := none }, w1)
      else
        ({ verified := false, refID := "", statusCode := resp.Data.Status,
             err := some (errorsNew (Itoa resp.Data.Status)) }, w1) := by
  unfold VerifyTransaction
  rw [if_neg (not_le.mpr hamount), if_neg hauthority]
  simp only [hreq]

/-- When `request` fails, `UnverifiedTransactions` returns its error and zero values. -/
theorem UnverifiedTransactions_request_error {σ : Type} (lib : Lib) (t : Transport σ) (z : Zarinpal)
    (w w1 : World σ) (err : GoError)
    (hreq : request lib t lib.UnmarshalUnverifiedTransactions z w (z.APIEndpoint ++ "unVerified.json")
      (.unverifiedTransactions { MerchantID := z.MerchantID }) = (.error err, w1)) :
    UnverifiedTransactions lib t z w =
      ({ authorities := [], statusCode := 0, err := some err }, w1) := by
  unfold UnverifiedTransactions
  simp only [hreq]

/-- When `request` decodes a response, `UnverifiedTransactions` branches on its status code. -/
theorem UnverifiedTransactions_request_ok {σ : Type} (lib : Lib) (t : Transport σ) (z : Zarinpal)
    (w w1 : World σ) (resp : unverifiedTransactionsResp)
    (hreq : request lib t lib.UnmarshalUnverifiedTransactions z w (z.APIEndpoint ++ "unVerified.json")
      (.unverifiedTransactions { MerchantID := z.MerchantID }) = (.ok resp, w1)) :
    UnverifiedTransactions lib t z w =
      if resp.Data.Status = 100 then
        ({ authorities := resp.Data.Authorities, statusCode := resp.Data.Status,
             err := none }, w1)
      else
        ({ authorities := [], statusCode := 0,
             err := some (errorsNew (Itoa resp.Data.Status)) }, w1) := by
  unfold UnverifiedTransactions
  simp only [hreq]

/-- After valid arguments, when `request` fails, `TransactionInquiry` returns its error and zero values. -/
theorem TransactionInquiry_request_error {σ : Type} (lib : Lib) (t : Transport σ) (z : Zarinpal)
    (w w1 : World σ)
    (authority : String) (err : GoError)
    (hauthority : authority ≠ "")
    (hreq : request lib t lib.UnmarshalTransactionInquiry z w (z.APIEndpoint ++ "inquiry.json")
      (.transactionInquiry { MerchantID := z.MerchantID, Authority := authority }) = (.error err, w1)) :
    TransactionInquiry lib t z w authority =
      ({ inquiry := "", statusCode := 0, err := some err }, w1) := by
  unfold TransactionInquiry
  rw [if_neg hauthority]
  simp only [hreq]

/-- After valid arguments, when `request` decodes a response, `TransactionInquiry` branches on its status code. -/
theorem TransactionInquiry_request_ok {σ : Type} (lib : Lib) (t : Transport σ) (z : Zarinpal)
    (w w1 : World σ)
    (authority : String) (resp : transactionInquiryResp)
    (hauthority : authority ≠ "")
    (hreq : request lib t lib.UnmarshalTransactionInquiry z w (z.APIEndpoint ++ "inquiry.json")
      (.transactionInquiry { MerchantID := z.MerchantID, Authority := authority }) = (.ok resp, w1)) :
    TransactionInquiry lib t z w authority =
      if resp.Data.Status = 100 then
        ({ inquiry := resp.Data.Code, statusCode := resp.Data.Status, err := none }, w1)
      else
        ({ inquiry := "", statusCode := 0,
             err := some (errorsNew (Itoa resp.Data.Status)) }, w1) := by
  unfold TransactionInquiry
  rw [if_neg hauthority]
  simp only [hreq]

/-- After valid arguments, when `request` fails, `ReverseTransaction` returns its error and zero values. -/
theorem ReverseTransaction_request_error {σ : Type} (lib : Lib) (t : Transport σ) (z : Zarinpal)
    (w w1 : World σ)
    (authority : String) (err : GoError)
    (hauthority : authority ≠ "")
    (hreq : request lib t lib.UnmarshalReverseTransaction z w (z.APIEndpoint ++ "reverse.json")
      (.transactionInquiry { MerchantID := z.MerchantID, Authority := authority }) = (.error err, w1)) :
    ReverseTransaction lib t z w authority =
      ({ statusCode := 0, err := some err }, w1) := by
  unfold ReverseTransaction
  rw [if_neg hauthority]
  simp only [hreq]

/-- After valid arguments, when `request` decodes a response, `ReverseTransaction` branches on its status code. -/
theorem ReverseTransaction_request_ok {σ : Type} (lib : Lib) (t : Transport σ) (z : Zarinpal)
    (w w1 : World σ)
    (authority : String) (resp : reverseTransactionResp)
    (hauthority : authority ≠ "")
    (hreq : request lib t lib.UnmarshalReverseTransaction z w (z.APIEndpoint ++ "reverse.json")
      (.transactionInquiry { MerchantID := z.MerchantID, Authority := authority }) = (.ok resp, w1)) :
    ReverseTransaction lib t z w authority =
      if resp.Data.Status = 100 then
        ({ statusCode := resp.Data.Status, err := none }, w1)
      else
        ({ statusCode := 0, err := some (errorsNew (Itoa resp.Data.Status)) }, w1) := by
  unfold ReverseTransaction
  rw [if_neg hauthority]
  simp only [hreq]

/-! ## The request helper -/

/-- The method `request`, case by case: a marshalling error or an error of
`http.NewRequest` ends it before `client.Do`; otherwise exactly the request
`postJSON endpoint bytes` goes to the transport, and the outcome is the transport
error, the read error, the fixed invalid-JSON error, or the decoded response. -/
theorem request_eq {σ ρ : Type} (lib : Lib) (t : Transport σ)
    (unmarshal : String → Except GoError ρ) (z : Zarinpal) (w : World σ)
    (endpoint : String) (data : ReqData) :
    request lib t unmarshal z w endpoint data =
      match lib.Marshal data with
      | .error err => (.error err, w)
      | .ok bytes =>
        match lib.requestError "POST" endpoint with
        | some err => (.error err, w)
        | none =>
          (match (t w.net (postJSON endpoint bytes)).1 with
           | .error err => .error err
           | .ok resp =>
             match resp.Body with
             | .error err => .error err
             | .ok body =>
               match unmarshal body with
               | .error _ => .error (errorsNew "zarinpal invalid json response")
               | .ok res => .ok res,
           { net := (t w.net (postJSON endpoint bytes)).2,
             sent := w.sent ++ [postJSON endpoint bytes] }) := by
  unfold request NewRequest clientDo
  cases hm : lib.Marshal data with
  | error err => rfl
  | ok bytes =>
    cases hn : lib.requestError "POST" endpoint with
    | some err => rfl
    | none =>
      have hpost : ({ Method := "POST", URL := endpoint,
                      Header := HeaderSet [] "Content-Type" "application/json",
                      Body := bytes } : HTTPRequest) = postJSON endpoint bytes := rfl
      simp only [hpost]
      cases ht : (t w.net (postJSON endpoint bytes)).1 with
      | error err => rfl
      | ok resp =>
        cases hb : resp.Body with
        | error err => simp [hb]
        | ok body =>
          cases hu : unmarshal body with
          | error e => simp [hb, hu]
          | ok res => simp [hb, hu]

/-! ## C2: a payment the gateway accepts -/

/-- C2: for every call of `NewPayment` on a client `z` with valid arguments
(`amount ≥ 1`, `callbackURL` and `description` non-empty) whose decoded response has
status code 100 and authority token `a`, the call returns
`paymentURL = z.PaymentEndpoint ++ a`, `authority = a`, `statusCode = 100` and no
error. -/
theorem NewPayment_code_100 {σ : Type} (lib : Lib) (t : Transport σ) (z : Zarinpal)
    (w w1 : World σ) (amount : Int) (callbackURL description : String)
    (resp : paymentRequestResp) (a : String)
    (hamount : 1 ≤ amount) (hcallback : callbackURL ≠ "") (hdescription : description ≠ "")
    (hreq : request lib t lib.UnmarshalPaymentRequest z w (z.APIEndpoint ++ "request.json")
      (.paymentRequest { MerchantID := z.MerchantID, Amount := amount,
                         Description := description, CallbackURL := callbackURL })
      = (.ok resp, w1))
    (hcode : resp.Data.Status = 100) (hauthority : resp.Data.Authority = a) :
    NewPayment lib t z w amount callbackURL description =
      ({ paymentURL := z.PaymentEndpoint ++ a, authority := a, statusCode := 100,
         err := none }, w1) := by
  rw [NewPayment_request_ok lib t z w w1 amount callbackURL description resp
    hamount hcallback hdescription hreq]
  simp [hcode, hauthority]

/-- C2 at the scenario of the specification: the sandbox client of the 36 letters x,
`NewPayment 1000 "https://example.com/cb" "order #1"`, a response of code 100 with
authority `authorityA`; the payment URL is the sandbox payment page followed by the
authority. -/
theorem NewPayment_code_100_witness :
    New merchantX36 true = (some sandboxClient, none) ∧
    NewPayment mockLib (mockGateway "code 100") sandboxClient world0 1000
        "https://example.com/cb" "order #1" =
      ({ paymentURL := "https://sandbox.zarinpal.com/pg/StartPay/" ++ authorityA,
         authority := authorityA, statusCode := 100, err := none },
       { net := 1,
         sent := [postJSON "https://sandbox.zarinpal.com/pg/v4/payment/request.json"
           scenarioBody] }) :=
  ⟨by decide,
   NewPayment_code_100 mockLib (mockGateway "code 100") sandboxClient world0
     { net := 1,
       sent := [postJSON "https://sandbox.zarinpal.com/pg/v4/payment/request.json"
         scenarioBody] }
     1000 "https://example.com/cb" "order #1"
     { Data := { Authority := authorityA, Fee := 0, FeeType := "Payer", Status := 100,
                 Message := "" }, Errors := [] }
     authorityA (by decide) (by decide) (by decide) rfl rfl rfl⟩

/-! ## C3: a status code other than 100 -/

/-- C3: for each of the five operations, for every valid call whose decoded response
carries a status code `c` other than 100 (negative codes and 0 included), the
operation returns an error whose message is exactly `Itoa c`, the decimal rendering
of `c`, and all its non-status results are zero (`paymentURL = ""`, `authority = ""`,
`verified = false`, `refID = ""`, no authorities, `inquiry = ""`); `NewPayment`
returns `statusCode = c` besides. -/
theorem status_not_100 {σ : Type} (lib : Lib) (t : Transport σ) (z : Zarinpal)
    (w w1 : World σ) (c : Int) (hc : c ≠ 100) :
    (∀ (amount : Int) (callbackURL description : String) (resp : paymentRequestResp),
      1 ≤ amount → callbackURL ≠ "" → description ≠ "" →
      request lib t lib.UnmarshalPaymentRequest z w (z.APIEndpoint ++ "request.json")
        (.paymentRequest { MerchantID := z.MerchantID, Amount := amount,
                           Description := description, CallbackURL := callbackURL })
        = (.ok resp, w1) →
      resp.Data.Status = c →
      NewPayment lib t z w amount callbackURL description =
        ({ paymentURL := "", authority := "", statusCode := c,
           err := some (errorsNew (Itoa c)) }, w1)) ∧
    (∀ (amount : Int) (authority : String) (resp : paymentVerificationResp),
      0 < amount → authority ≠ "" →
      request lib t lib.UnmarshalPaymentVerification z w (z.APIEndpoint ++ "verify.json")
        (.paymentVerification { MerchantID := z.MerchantID, Amount := amount,
                                Authority := authority })
        = (.ok resp, w1) →
      resp.Data.Status = c →
      (VerifyTransaction lib t z w amount authority).1.verified = false ∧
      (VerifyTransaction lib t z w amount authority).1.refID = "" ∧
      (VerifyTransaction lib t z w amount authority).1.err = some (errorsNew (Itoa c))) ∧
    (∀ (resp : unverifiedTransactionsResp),
      request lib t lib.UnmarshalUnverifiedTransactions z w
        (z.APIEndpoint ++ "unVerified.json")
        (.unverifiedTransactions { MerchantID := z.MerchantID }) = (.ok resp, w1) →
      resp.Data.Status = c →
      (UnverifiedTransactions lib t z w).1.authorities = [] ∧
      (UnverifiedTransactions lib t z w).1.err = some (errorsNew (Itoa c))) ∧
    (∀ (authority : String) (resp : transactionInquiryResp),
      authority ≠ "" →
      request lib t lib.UnmarshalTransactionInquiry z w (z.APIEndpoint ++ "inquiry.json")
        (.transactionInquiry { MerchantID := z.MerchantID, Authority := authority })
        = (.ok resp, w1) →
      resp.Data.Status = c →
      (TransactionInquiry lib t z w authority).1.inquiry = "" ∧
      (TransactionInquiry lib t z w authority).1.err = some (errorsNew (Itoa c))) ∧
    (∀ (authority : String) (resp : reverseTransactionResp),
      authority ≠ "" →
      request lib t lib.UnmarshalReverseTransaction z w (z.APIEndpoint ++ "reverse.json")
        (.transactionInquiry { MerchantID := z.MerchantID, Authority := authority })
        = (.ok resp, w1) →
      resp.Data.Status = c →
      (ReverseTransaction lib t z w authority).1.err = some (errorsNew (Itoa c))) ∧
    (errorsNew (Itoa c)).Error = Itoa c := by
  refine ⟨?_, ?_, ?_, ?_, ?_, rfl⟩
  · intro amount callbackURL description resp ha hcb hd hreq hs
    rw [NewPayment_request_ok lib t z w w1 amount callbackURL description resp
      ha hcb hd hreq]
    simp [hs, hc]
  · intro amount authority resp ha hau hreq hs
    rw [VerifyTransaction_request_ok lib t z w w1 amount authority resp ha hau hreq]
    simp [hs, hc]
  · intro resp hreq hs
    rw [UnverifiedTransactions_request_ok lib t z w w1 resp hreq]
    simp [hs, hc]
  · intro authority resp hau hreq hs
    rw [TransactionInquiry_request_ok lib t z w w1 authority resp hau hreq]
    simp [hs, hc]
  · intro authority resp hau hreq hs
    rw [ReverseTransaction_request_ok lib t z w w1 authority resp hau hreq]
    simp [hs, hc]

/-- C3 at the scenario of the specification: the same payment, answered with code
-9, gives an empty payment URL and authority, `statusCode = -9` and the error
message "-9". -/
theorem status_not_100_witness :
    (-9 : Int) ≠ 100 ∧ Itoa (-9) = "-9" ∧
    NewPayment mockLib (mockGateway "code -9") sandboxClient world0 1000
        "https://example.com/cb" "order #1" =
      ({ paymentURL := "", authority := "", statusCode := -9,
         err := some (errorsNew (Itoa (-9))) },
       { net := 1,
         sent := [postJSON "https://sandbox.zarinpal.com/pg/v4/payment/request.json"
           scenarioBody] }) :=
  ⟨by decide, by decide,
   (status_not_100 mockLib (mockGateway "code -9") sandboxClient world0
     { net := 1,
       sent := [postJSON "https://sandbox.zarinpal.com/pg/v4/payment/request.json"
         scenarioBody] }
     (-9) (by decide)).1 1000 "https://example.com/cb" "order #1"
     { Data := { Authority := "", Fee := 0, FeeType := "", Status := -9, Message := "" },
       Errors := [] }
     (by decide) (by decide) (by decide) rfl rfl⟩

/-! ## C4 and C5: validation -/

/-- C4: a validation failure performs no network I/O. For `NewPayment` with
`amount < 1` or an empty `callbackURL` or an empty `description`, for
`VerifyTransaction` with `amount ≤ 0` or an empty `authority`, and for
`TransactionInquiry` and `ReverseTransaction` with an empty `authority`, there is one
of the validation messages such that, whatever the library, the transport and the
world are, the operation returns the error of that message with every other result
zero and leaves the world as it was: the log of requests is unchanged, the transport
was not invoked. -/
theorem validation_failure_sends_nothing (z : Zarinpal) :
    (∀ (amount : Int) (callbackURL description : String),
      amount < 1 ∨ callbackURL = "" ∨ description = "" →
      ∃ msg : String,
        msg ∈ ["amount must be a positive number", "callbackURL should not be empty",
               "description should not be empty"] ∧
        ∀ (σ : Type) (lib : Lib) (t : Transport σ) (w : World σ),
          NewPayment lib t z w amount callbackURL description =
            ({ paymentURL := "", authority := "", statusCode := 0,
               err := some (errorsNew msg) }, w)) ∧
    (∀ (amount : Int) (authority : String),
      amount ≤ 0 ∨ authority = "" →
      ∃ msg : String,
        msg ∈ ["amount must be a positive number", "authority should not be empty"] ∧
        ∀ (σ : Type) (lib : Lib) (t : Transport σ) (w : World σ),
          VerifyTransaction lib t z w amount authority =
            ({ verified := false, refID := "", statusCode := 0,
               err := some (errorsNew msg) }, w)) ∧
    (∀ (σ : Type) (lib : Lib) (t : Transport σ) (w : World σ),
        TransactionInquiry lib t z w "" =
          ({ inquiry := "", statusCode := 0,
             err := some (errorsNew "authority should not be empty") }, w)) ∧
    (∀ (σ : Type) (lib : Lib) (t : Transport σ) (w : World σ),
        ReverseTransaction lib t z w "" =
          ({ statusCode := 0, err := some (errorsNew "authority should not be empty") }, w)) := by
  refine ⟨?_, ?_, ?_, ?_⟩
  · intro amount callbackURL description h
    by_cases ha : amount < 1
    · exact ⟨"amount must be a positive number", by simp, fun σ lib t w => by
        unfold NewPayment; rw [if_pos ha]⟩
    · by_cases hcb : callbackURL = ""
      · exact ⟨"callbackURL should not be empty", by simp, fun σ lib t w => by
          unfold NewPayment; rw [if_neg ha, if_pos hcb]⟩
      · have hd : description = "" := by
          rcases h with h | h | h
          · exact absurd h ha
          · exact absurd h hcb
          · exact h
        exact ⟨"description should not be empty", by simp, fun σ lib t w => by
          unfold NewPayment; rw [if_neg ha, if_neg hcb, if_pos hd]⟩
  · intro amount authority h
    by_cases ha : amount ≤ 0
    · exact ⟨"amount must be a positive number", by simp, fun σ lib t w => by
        unfold VerifyTransaction; rw [if_pos ha]⟩
    · have hau : authority = "" := by
        rcases h with h | h
        · exact absurd h ha
        · exact h
      exact ⟨"authority should not be empty", by simp, fun σ lib t w => by
        unfold VerifyTransaction; rw [if_neg ha, if_pos hau]⟩
  · intro σ lib t w
    unfold TransactionInquiry; rw [if_pos rfl]
  · intro σ lib t w
    unfold ReverseTransaction; rw [if_pos rfl]

/-- C4 at concrete inputs: a payment of amount 0, and an inquiry with an empty
authority, on a gateway that would accept them, leave the call counter at 0 and
the log of requests empty. -/
theorem validation_failure_sends_nothing_witness :
    (∃ msg : String,
      msg ∈ ["amount must be a positive number", "callbackURL should not be empty",
             "description should not be empty"] ∧
      NewPayment mockLib (mockGateway "code 100") sandboxClient world0 0
          "https://example.com/cb" "order #1" =
        ({ paymentURL := "", authority := "", statusCode := 0,
           err := some (errorsNew msg) }, { net := 0, sent := [] })) ∧
    TransactionInquiry mockLib (mockGateway "code 100") sandboxClient world0 "" =
      ({ inquiry := "", statusCode := 0,
         err := some (errorsNew "authority should not be empty") },
       { net := 0, sent := [] }) :=
  ⟨((validation_failure_sends_nothing sandboxClient).1 0 "https://example.com/cb" "order #1"
      (Or.inl (by decide))).imp
      (fun _ h => ⟨h.1, h.2 Nat mockLib (mockGateway "code 100") world0⟩),
   (validation_failure_sends_nothing sandboxClient).2.2.1 Nat mockLib
      (mockGateway "code 100") world0⟩

/-- C5: `NewPayment` validates `amount`, then `callbackURL`, then `description`, and
stops at the first failure: if `amount < 1` the error is "amount must be a positive
number" whatever the other arguments are; if `amount ≥ 1` and `callbackURL` is empty
it is "callbackURL should not be empty" whatever `description` is; if `amount ≥ 1`,
`callbackURL` is non-empty and `description` is empty it is "description should not be
empty". The three messages are pairwise distinct and each begins with the name of the
offending field. -/
theorem NewPayment_validation_order {σ : Type} (lib : Lib) (t : Transport σ) (z : Zarinpal)
    (w : World σ) (amount : Int) (callbackURL description : String) :
    (amount < 1 →
      (NewPayment lib t z w amount callbackURL description).1.err =
        some (errorsNew "amount must be a positive number")) ∧
    (1 ≤ amount → callbackURL = "" →
      (NewPayment lib t z w amount callbackURL description).1.err =
        some (errorsNew "callbackURL should not be empty")) ∧
    (1 ≤ amount → callbackURL ≠ "" → description = "" →
      (NewPayment lib t z w amount callbackURL description).1.err =
        some (errorsNew "description should not be empty")) ∧
    ("amount must be a positive number" ≠ "callbackURL should not be empty" ∧
      "amount must be a positive number" ≠ "description should not be empty" ∧
      "callbackURL should not be empty" ≠ "description should not be empty") ∧
    ("amount must be a positive number" = "amount" ++ " must be a positive number" ∧
      "callbackURL should not be empty" = "callbackURL" ++ " should not be empty" ∧
      "description should not be empty" = "description" ++ " should not be empty") := by
  refine ⟨?_, ?_, ?_, by decide, by decide⟩
  · intro ha
    unfold NewPayment; rw [if_pos ha]
  · intro ha hcb
    unfold NewPayment; rw [if_neg (not_lt.mpr ha), if_pos hcb]
  · intro ha hcb hd
    unfold NewPayment; rw [if_neg (not_lt.mpr ha), if_neg hcb, if_pos hd]

/-- C5 at concrete inputs in which several arguments are invalid at once: the first
invalid one, in the order amount, callbackURL, description, names the error. -/
theorem NewPayment_validation_order_witness :
    (NewPayment mockLib (mockGateway "code 100") sandboxClient world0 0 "" "").1.err =
      some (errorsNew "amount must be a positive number") ∧
    (NewPayment mockLib (mockGateway "code 100") sandboxClient world0 1 "" "").1.err =
      some (errorsNew "callbackURL should not be empty") ∧
    (NewPayment mockLib (mockGateway "code 100") sandboxClient world0 1 "cb" "").1.err =
      some (errorsNew "description should not be empty") :=
  ⟨(NewPayment_validation_order mockLib (mockGateway "code 100") sandboxClient world0
      0 "" "").1 (by decide),
   (NewPayment_validation_order mockLib (mockGateway "code 100") sandboxClient world0
      1 "" "").2.1 (by decide) rfl,
   (NewPayment_validation_order mockLib (mockGateway "code 100") sandboxClient world0
      1 "cb" "").2.2.1 (by decide) (by decide) rfl⟩

/-! ## C7: the other four operations on status code 100 -/

/-- C7: for every valid call whose decoded response has status code 100 the typed
results are the decoded fields and there is no error: `VerifyTransaction` returns
`verified = true`, `refID` the text of the response's `ref_id` unchanged, and
`statusCode = 100`; `UnverifiedTransactions` returns the decoded list of records, the
same elements in the same order, and `statusCode = 100`; `TransactionInquiry` returns
the field "status" of the response as `inquiry` and `statusCode = 100`;
`ReverseTransaction` returns `statusCode = 100`. -/
theorem status_100_round_trip {σ : Type} (lib : Lib) (t : Transport σ) (z : Zarinpal)
    (w w1 : World σ) :
    (∀ (amount : Int) (authority : String) (resp : paymentVerificationResp),
      0 < amount → authority ≠ "" →
      request lib t lib.UnmarshalPaymentVerification z w (z.APIEndpoint ++ "verify.json")
        (.paymentVerification { MerchantID := z.MerchantID, Amount := amount,
                                Authority := authority })
        = (.ok resp, w1) →
      resp.Data.Status = 100 →
      VerifyTransaction lib t z w amount authority =
        ({ verified := true, refID := resp.Data.RefID, statusCode := 100, err := none }, w1)) ∧
    (∀ (resp : unverifiedTransactionsResp),
      request lib t lib.UnmarshalUnverifiedTransactions z w
        (z.APIEndpoint ++ "unVerified.json")
        (.unverifiedTransactions { MerchantID := z.MerchantID }) = (.ok resp, w1) →
      resp.Data.Status = 100 →
      UnverifiedTransactions lib t z w =
        ({ authorities := resp.Data.Authorities, statusCode := 100, err := none }, w1)) ∧
    (∀ (authority : String) (resp : transactionInquiryResp),
      authority ≠ "" →
      request lib t lib.UnmarshalTransactionInquiry z w (z.APIEndpoint ++ "inquiry.json")
        (.transactionInquiry { MerchantID := z.MerchantID, Authority := authority })
        = (.ok resp, w1) →
      resp.Data.Status = 100 →
      TransactionInquiry lib t z w authority =
        ({ inquiry := resp.Data.Code, statusCode := 100, err := none }, w1)) ∧
    (∀ (authority : String) (resp : reverseTransactionResp),
      authority ≠ "" →
      request lib t lib.UnmarshalReverseTransaction z w (z.APIEndpoint ++ "reverse.json")
        (.transactionInquiry { MerchantID := z.MerchantID, Authority := authority })
        = (.ok resp, w1) →
      resp.Data.Status = 100 →
      ReverseTransaction lib t z w authority = ({ statusCode := 100, err := none }, w1)) := by
  refine ⟨?_, ?_, ?_, ?_⟩
  · intro amount authority resp ha hau hreq hs
    rw [VerifyTransaction_request_ok lib t z w w1 amount authority resp ha hau hreq]
    simp [hs]
  · intro resp hreq hs
    rw [UnverifiedTransactions_request_ok lib t z w w1 resp hreq]
    simp [hs]
  · intro authority resp hau hreq hs
    rw [TransactionInquiry_request_ok lib t z w w1 authority resp hau hreq]
    simp [hs]
  · intro authority resp hau hreq hs
    rw [ReverseTransaction_request_ok lib t z w w1 authority resp hau hreq]
    simp [hs]

/-- C7 at concrete inputs: a reference of thirty digits, beyond any 64-bit integer,
comes back digit for digit; the two unverified records come back in their order; the
inquiry gives "PAID"; the reversal gives 100. -/
theorem status_100_round_trip_witness :
    VerifyTransaction mockLib (mockGateway "code 100") sandboxClient world0 1000 authorityA =
      ({ verified := true, refID := "123456789012345678901234567890", statusCode := 100,
         err := none },
       { net := 1,
         sent := [postJSON "https://sandbox.zarinpal.com/pg/v4/payment/verify.json"
           ("merchant_id=" ++ merchantX36 ++ " amount=1000 authority=" ++ authorityA)] }) ∧
    UnverifiedTransactions mockLib (mockGateway "code 100") sandboxClient world0 =
      ({ authorities := [unverifiedA, unverifiedB], statusCode := 100, err := none },
       { net := 1,
         sent := [postJSON "https://sandbox.zarinpal.com/pg/v4/payment/unVerified.json"
           ("merchant_id=" ++ merchantX36)] }) ∧
    TransactionInquiry mockLib (mockGateway "code 100") sandboxClient world0 authorityA =
      ({ inquiry := "PAID", statusCode := 100, err := none },
       { net := 1,
         sent := [postJSON "https://sandbox.zarinpal.com/pg/v4/payment/inquiry.json"
           ("merchant_id=" ++ merchantX36 ++ " authority=" ++ authorityA)] }) ∧
    ReverseTransaction mockLib (mockGateway "code 100") sandboxClient world0 authorityA =
      ({ statusCode := 100, err := none },
       { net := 1,
         sent := [postJSON "https://sandbox.zarinpal.com/pg/v4/payment/reverse.json"
           ("merchant_id=" ++ merchantX36 ++ " authority=" ++ authorityA)] }) :=
  ⟨(status_100_round_trip mockLib (mockGateway "code 100") sandboxClient world0 _).1
      1000 authorityA
      { Data := { Status := 100, Message := "", CardHash := "", CardPan := "",
                  RefID := "123456789012345678901234567890", FeeType := "Payer", Fee := 0 },
        Errors := [] }
      (by decide) (by decide) rfl rfl,
   (status_100_round_trip mockLib (mockGateway "code 100") sandboxClient world0 _).2.1
      { Data := { Status := 100, Message := "", Authorities := [unverifiedA, unverifiedB] } }
      rfl rfl,
   (status_100_round_trip mockLib (mockGateway "code 100") sandboxClient world0 _).2.2.1
      authorityA
      { Data := { Code := "PAID", Status := 100, Message := "" }, Message := "", Errors := [] }
      (by decide) rfl rfl,
   (status_100_round_trip mockLib (mockGateway "code 100") sandboxClient world0 _).2.2.2
      authorityA { Data := { Status := 100, Message := "" }, Errors := [] }
      (by decide) rfl rfl⟩

/-! ## C8: failures of the request helper -/

/-- The method `request` on a body that cannot be decoded: the fixed error, whatever
the body and the decoder's error are. -/
theorem request_of_malformedBody {σ ρ : Type} (lib : Lib) (t : Transport σ)
    (unmarshal : String → Except GoError ρ) (z : Zarinpal) (w : World σ)
    (endpoint : String) (data : ReqData)
    (h : MalformedBody lib t unmarshal w endpoint data) :
    (request lib t unmarshal z w endpoint data).1 =
      .error (errorsNew "zarinpal invalid json response") := by
  obtain ⟨bytes, resp, body, e, hm, hn, ht, hb, hu⟩ := h
  rw [request_eq]
  simp [hm, hn, ht, hb, hu]

/-- C8: for each of the five operations called with valid arguments, when the request
helper fails with an error `e` the operation returns `e` itself and zero-valued
results; and when the failure is a response body that cannot be decoded, the error is
the one fixed error of message "zarinpal invalid json response", the same for every
body, every decoder error and every operation. -/
theorem helper_failure {σ : Type} (lib : Lib) (t : Transport σ) (z : Zarinpal)
    (w : World σ) :
    (∀ (amount : Int) (callbackURL description : String),
      1 ≤ amount → callbackURL ≠ "" → description ≠ "" →
      (∀ (e : GoError) (w1 : World σ),
        request lib t lib.UnmarshalPaymentRequest z w (z.APIEndpoint ++ "request.json")
          (.paymentRequest { MerchantID := z.MerchantID, Amount := amount,
                             Description := description, CallbackURL := callbackURL })
          = (.error e, w1) →
        NewPayment lib t z w amount callbackURL description =
          ({ paymentURL := "", authority := "", statusCode := 0, err := some e }, w1)) ∧
      (MalformedBody lib t lib.UnmarshalPaymentRequest w (z.APIEndpoint ++ "request.json")
          (.paymentRequest { MerchantID := z.MerchantID, Amount := amount,
                             Description := description, CallbackURL := callbackURL }) →
        (NewPayment lib t z w amount callbackURL description).1 =
          { paymentURL := "", authority := "", statusCode := 0,
            err := some (errorsNew "zarinpal invalid json response") })) ∧
    (∀ (amount : Int) (authority : String),
      0 < amount → authority ≠ "" →
      (∀ (e : GoError) (w1 : World σ),
        request lib t lib.UnmarshalPaymentVerification z w (z.APIEndpoint ++ "verify.json")
          (.paymentVerification { MerchantID := z.MerchantID, Amount := amount,
                                  Authority := authority })
          = (.error e, w1) →
        VerifyTransaction lib t z w amount authority =
          ({ verified := false, refID := "", statusCode := 0, err := some e }, w1)) ∧
      (MalformedBody lib t lib.UnmarshalPaymentVerification w (z.APIEndpoint ++ "verify.json")
          (.paymentVerification { MerchantID := z.MerchantID, Amount := amount,
                                  Authority := authority }) →
        (VerifyTransaction lib t z w amount authority).1 =
          { verified := false, refID := "", statusCode := 0,
            err := some (errorsNew "zarinpal invalid json response") })) ∧
    ((∀ (e : GoError) (w1 : World σ),
        request lib t lib.UnmarshalUnverifiedTransactions z w
          (z.APIEndpoint ++ "unVerified.json")
          (.unverifiedTransactions { MerchantID := z.MerchantID }) = (.error e, w1) →
        UnverifiedTransactions lib t z w =
          ({ authorities := [], statusCode := 0, err := some e }, w1)) ∧
      (MalformedBody lib t lib.UnmarshalUnverifiedTransactions w
          (z.APIEndpoint ++ "unVerified.json")
          (.unverifiedTransactions { MerchantID := z.MerchantID }) →
        (UnverifiedTransactions lib t z w).1 =
          { authorities := [], statusCode := 0,
            err := some (errorsNew "zarinpal invalid json response") })) ∧
    (∀ (authority : String), authority ≠ "" →
      (∀ (e : GoError) (w1 : World σ),
        request lib t lib.UnmarshalTransactionInquiry z w (z.APIEndpoint ++ "inquiry.json")
          (.transactionInquiry { MerchantID := z.MerchantID, Authority := authority })
          = (.error e, w1) →
        TransactionInquiry lib t z w authority =
          ({ inquiry := "", statusCode := 0, err := some e }, w1)) ∧
      (MalformedBody lib t lib.UnmarshalTransactionInquiry w (z.APIEndpoint ++ "inquiry.json")
          (.transactionInquiry { MerchantID := z.MerchantID, Authority := authority }) →
        (TransactionInquiry lib t z w authority).1 =
          { inquiry := "", statusCode := 0,
            err := some (errorsNew "zarinpal invalid json response") })) ∧
    (∀ (authority : String), authority ≠ "" →
      (∀ (e : GoError) (w1 : World σ),
        request lib t lib.UnmarshalReverseTransaction z w (z.APIEndpoint ++ "reverse.json")
          (.transactionInquiry { MerchantID := z.MerchantID, Authority := authority })
          = (.error e, w1) →
        ReverseTransaction lib t z w authority = ({ statusCode := 0, err := some e }, w1)) ∧
      (MalformedBody lib t lib.UnmarshalReverseTransaction w (z.APIEndpoint ++ "reverse.json")
          (.transactionInquiry { MerchantID := z.MerchantID, Authority := authority }) →
        (ReverseTransaction lib t z w authority).1 =
          { statusCode := 0, err := some (errorsNew "zarinpal invalid json response") })) := by
  refine ⟨?_, ?_, ⟨?_, ?_⟩, ?_, ?_⟩
  · intro amount callbackURL description ha hcb hd
    refine ⟨fun e w1 hreq => ?_, fun hm => ?_⟩
    · rw [NewPayment_request_error lib t z w w1 amount callbackURL description e
        ha hcb hd hreq]
    · have h1 := request_of_malformedBody lib t _ z w _ _ hm
      rw [NewPayment_request_error lib t z w _ amount callbackURL description _
        ha hcb hd (Prod.ext h1 rfl)]
  · intro amount authority ha hau
    refine ⟨fun e w1 hreq => ?_, fun hm => ?_⟩
    · rw [VerifyTransaction_request_error lib t z w w1 amount authority e ha hau hreq]
    · have h1 := request_of_malformedBody lib t _ z w _ _ hm
      rw [VerifyTransaction_request_error lib t z w _ amount authority _
        ha hau (Prod.ext h1 rfl)]
  · intro e w1 hreq
    rw [UnverifiedTransactions_request_error lib t z w w1 e hreq]
  · intro hm
    have h1 := request_of_malformedBody lib t _ z w _ _ hm
    rw [UnverifiedTransactions_request_error lib t z w _ _ (Prod.ext h1 rfl)]
  · intro authority hau
    refine ⟨fun e w1 hreq => ?_, fun hm => ?_⟩
    · rw [TransactionInquiry_request_error lib t z w w1 authority e hau hreq]
    · have h1 := request_of_malformedBody lib t _ z w _ _ hm
      rw [TransactionInquiry_request_error lib t z w _ authority _ hau
        (Prod.ext h1 rfl)]
  · intro authority hau
    refine ⟨fun e w1 hreq => ?_, fun hm => ?_⟩
    · rw [ReverseTransaction_request_error lib t z w w1 authority e hau hreq]
    · have h1 := request_of_malformedBody lib t _ z w _ _ hm
      rw [ReverseTransaction_request_error lib t z w _ authority _ hau
        (Prod.ext h1 rfl)]

/-- C8 at concrete inputs: a body the decoder does not know gives the fixed error, and
a network that is down gives its own error, unchanged; in both cases the other
results are zero. -/
theorem helper_failure_witness :
    (NewPayment mockLib (mockGateway "<html>502</html>") sandboxClient world0 1000
        "https://example.com/cb" "order #1").1 =
      { paymentURL := "", authority := "", statusCode := 0,
        err := some (errorsNew "zarinpal invalid json response") } ∧
    ReverseTransaction mockLib mockUnreachable sandboxClient world0 authorityA =
      ({ statusCode := 0,
         err := some (.foreign "net/http" "dial tcp: connection refused") },
       { net := 1,
         sent := [postJSON "https://sandbox.zarinpal.com/pg/v4/payment/reverse.json"
           ("merchant_id=" ++ merchantX36 ++ " authority=" ++ authorityA)] }) :=
  ⟨((helper_failure mockLib (mockGateway "<html>502</html>") sandboxClient world0).1
      1000 "https://example.com/cb" "order #1" (by decide) (by decide) (by decide)).2
      ⟨scenarioBody, { StatusCode := 200, Body := .ok "<html>502</html>" },
        "<html>502</html>", mockSyntaxError, rfl, rfl, rfl, rfl, rfl⟩,
   ((helper_failure mockLib mockUnreachable sandboxClient world0).2.2.2.2
      authorityA (by decide)).1 _ _ rfl⟩

/-! ## C9: the request an operation sends -/

/-- When marshalling and `http.NewRequest` succeed, `request` hands exactly the one
request `postJSON endpoint bytes` to the transport and returns what `readResponse`
makes of the answer. -/
theorem request_of_built {σ ρ : Type} (lib : Lib) (t : Transport σ)
    (unmarshal : String → Except GoError ρ) (z : Zarinpal) (w : World σ)
    (endpoint : String) (data : ReqData) (bytes : String)
    (hm : lib.Marshal data = .ok bytes) (hn : lib.requestError "POST" endpoint = none) :
    request lib t unmarshal z w endpoint data =
      (readResponse unmarshal (t w.net (postJSON endpoint bytes)).1,
       { net := (t w.net (postJSON endpoint bytes)).2,
         sent := w.sent ++ [postJSON endpoint bytes] }) := by
  rw [request_eq]
  simp only [hm, hn]
  unfold readResponse
  cases (t w.net (postJSON endpoint bytes)).1 with
  | error err => rfl
  | ok resp =>
    cases hb : resp.Body with
    | error err => simp [hb]
    | ok body =>
      cases hu : unmarshal body with
      | error e => simp [hb, hu]
      | ok res => simp [hb, hu]

/-- The five operations when marshalling and `http.NewRequest` succeed: each makes
the one call of `client.Do`, on the POST request to `z.APIEndpoint` followed by its
path with the marshalled struct as body, and its results are decided by what that
call returns. -/
theorem operations_of_built {σ : Type} (lib : Lib) (t : Transport σ) (z : Zarinpal)
    (w : World σ) :
    (∀ (amount : Int) (callbackURL description : String) (bytes : String),
      1 ≤ amount → callbackURL ≠ "" → description ≠ "" →
      lib.Marshal (.paymentRequest { MerchantID := z.MerchantID, Amount := amount,
                                     Description := description, CallbackURL := callbackURL }) = .ok bytes →
      lib.requestError "POST" (z.APIEndpoint ++ "request.json") = none →
      (NewPayment lib t z w amount callbackURL description).2 =
        { net := (t w.net (postJSON (z.APIEndpoint ++ "request.json") bytes)).2,
          sent := w.sent ++ [postJSON (z.APIEndpoint ++ "request.json") bytes] } ∧
      ∀ (σ' : Type) (t' : Transport σ') (w' : World σ'),
        (t' w'.net (postJSON (z.APIEndpoint ++ "request.json") bytes)).1 =
          (t w.net (postJSON (z.APIEndpoint ++ "request.json") bytes)).1 →
        (NewPayment lib t' z w' amount callbackURL description).1 = (NewPayment lib t z w amount callbackURL description).1) ∧
    (∀ (amount : Int) (authority : String) (bytes : String),
      0 < amount → authority ≠ "" →
      lib.Marshal (.paymentVerification { MerchantID := z.MerchantID, Amount := amount,
                                          Authority := authority }) = .ok bytes →
      lib.requestError "POST" (z.APIEndpoint ++ "verify.json") = none →
      (VerifyTransaction lib t z w amount authority).2 =
        { net := (t w.net (postJSON (z.APIEndpoint ++ "verify.json") bytes)).2,
          sent := w.sent ++ [postJSON (z.APIEndpoint ++ "verify.json") bytes] } ∧
      ∀ (σ' : Type) (t' : Transport σ') (w' : World σ'),
        (t' w'.net (postJSON (z.APIEndpoint ++ "verify.json") bytes)).1 =
          (t w.net (postJSON (z.APIEndpoint ++ "verify.json") bytes)).1 →
        (VerifyTransaction lib t' z w' amount authority).1 = (VerifyTransaction lib t z w amount authority).1) ∧
    (∀ (bytes : String),
      lib.Marshal (.unverifiedTransactions { MerchantID := z.MerchantID }) = .ok bytes →
      lib.requestError "POST" (z.APIEndpoint ++ "unVerified.json") = none →
      (UnverifiedTransactions lib t z w).2 =
        { net := (t w.net (postJSON (z.APIEndpoint ++ "unVerified.json") bytes)).2,
          sent := w.sent ++ [postJSON (z.APIEndpoint ++ "unVerified.json") bytes] } ∧
      ∀ (σ' : Type) (t' : Transport σ') (w' : World σ'),
        (t' w'.net (postJSON (z.APIEndpoint ++ "unVerified.json") bytes)).1 =
          (t w.net (postJSON (z.APIEndpoint ++ "unVerified.json") bytes)).1 →
        (UnverifiedTransactions lib t' z w').1 = (UnverifiedTransactions lib t z w).1) ∧
    (∀ (authority : String) (bytes : String),
      authority ≠ "" →
      lib.Marshal (.transactionInquiry { MerchantID := z.MerchantID, Authority := authority }) = .ok bytes →
      lib.requestError "POST" (z.APIEndpoint ++ "inquiry.json") = none →
      (TransactionInquiry lib t z w authority).2 =
        { net := (t w.net (postJSON (z.APIEndpoint ++ "inquiry.json") bytes)).2,
          sent := w.sent ++ [postJSON (z.APIEndpoint ++ "inquiry.json") bytes] } ∧
      ∀ (σ' : Type) (t' : Transport σ') (w' : World σ'),
        (t' w'.net (postJSON (z.APIEndpoint ++ "inquiry.json") bytes)).1 =
          (t w.net (postJSON (z.APIEndpoint ++ "inquiry.json") bytes)).1 →
        (TransactionInquiry lib t' z w' authority).1 = (TransactionInquiry lib t z w authority).1) ∧
    (∀ (authority : String) (bytes : String),
      authority ≠ "" →
      lib.Marshal (.transactionInquiry { MerchantID := z.MerchantID, Authority := authority }) = .ok bytes →
      lib.requestError "POST" (z.APIEndpoint ++ "reverse.json") = none →
      (ReverseTransaction lib t z w authority).2 =
        { net := (t w.net (postJSON (z.APIEndpoint ++ "reverse.json") bytes)).2,
          sent := w.sent ++ [postJSON (z.APIEndpoint ++ "reverse.json") bytes] } ∧
      ∀ (σ' : Type) (t' : Transport σ') (w' : World σ'),
        (t' w'.net (postJSON (z.APIEndpoint ++ "reverse.json") bytes)).1 =
          (t w.net (postJSON (z.APIEndpoint ++ "reverse.json") bytes)).1 →
        (ReverseTransaction lib t' z w' authority).1 = (ReverseTransaction lib t z w authority).1) := by
  refine ⟨?_, ?_, ?_, ?_, ?_⟩
  · intro amount callbackURL description bytes ha hcb hd hm hn
    have h := request_of_built lib t lib.UnmarshalPaymentRequest z w _ _ bytes hm hn
    refine ⟨?_, fun σ' t' w' ht => ?_⟩
    · cases hr : readResponse lib.UnmarshalPaymentRequest
          (t w.net (postJSON (z.APIEndpoint ++ "request.json") bytes)).1 with
      | error e =>
        rw [hr] at h
        rw [NewPayment_request_error lib t z w _ amount callbackURL description e ha hcb hd h]
      | ok resp =>
        rw [hr] at h
        rw [NewPayment_request_ok lib t z w _ amount callbackURL description resp ha hcb hd h]
        split_ifs <;> rfl
    · have h' := request_of_built lib t' lib.UnmarshalPaymentRequest z w' _ _ bytes hm hn
      rw [ht] at h'
      cases hr : readResponse lib.UnmarshalPaymentRequest
          (t w.net (postJSON (z.APIEndpoint ++ "request.json") bytes)).1 with
      | error e =>
        rw [hr] at h h'
        rw [NewPayment_request_error lib t z w _ amount callbackURL description e ha hcb hd h,
          NewPayment_request_error lib t' z w' _ amount callbackURL description e ha hcb hd h']
      | ok resp =>
        rw [hr] at h h'
        rw [NewPayment_request_ok lib t z w _ amount callbackURL description resp ha hcb hd h,
          NewPayment_request_ok lib t' z w' _ amount callbackURL description resp ha hcb hd h']
        split_ifs <;> rfl
  · intro amount authority bytes ha hau hm hn
    have h := request_of_built lib t lib.UnmarshalPaymentVerification z w _ _ bytes hm hn
    refine ⟨?_, fun σ' t' w' ht => ?_⟩
    · cases hr : readResponse lib.UnmarshalPaymentVerification
          (t w.net (postJSON (z.APIEndpoint ++ "verify.json") bytes)).1 with
      | error e =>
        rw [hr] at h
        rw [VerifyTransaction_request_error lib t z w _ amount authority e ha hau h]
      | ok resp =>
        rw [hr] at h
        rw [VerifyTransaction_request_ok lib t z w _ amount authority resp ha hau h]
        split_ifs <;> rfl
    · have h' := request_of_built lib t' lib.UnmarshalPaymentVerification z w' _ _ bytes hm hn
      rw [ht] at h'
      cases hr : readResponse lib.UnmarshalPaymentVerification
          (t w.net (postJSON (z.APIEndpoint ++ "verify.json") bytes)).1 with
      | error e =>
        rw [hr] at h h'
        rw [VerifyTransaction_request_error lib t z w _ amount authority e ha hau h,
          VerifyTransaction_request_error lib t' z w' _ amount authority e ha hau h']
      | ok resp =>
        rw [hr] at h h'
        rw [VerifyTransaction_request_ok lib t z w _ amount authority resp ha hau h,
          VerifyTransaction_request_ok lib t' z w' _ amount authority resp ha hau h']
        split_ifs <;> rfl
  · intro bytes hm hn
    have h := request_of_built lib t lib.UnmarshalUnverifiedTransactions z w _ _ bytes hm hn
    refine ⟨?_, fun σ' t' w' ht => ?_⟩
    · cases hr : readResponse lib.UnmarshalUnverifiedTransactions
          (t w.net (postJSON (z.APIEndpoint ++ "unVerified.json") bytes)).1 with
      | error e =>
        rw [hr] at h
        rw [UnverifiedTransactions_request_error lib t z w _ e h]
      | ok resp =>
        rw [hr] at h
        rw [UnverifiedTransactions_request_ok lib t z w _ resp h]
        split_ifs <;> rfl
    · have h' := request_of_built lib t' lib.UnmarshalUnverifiedTransactions z w' _ _ bytes hm hn
      rw [ht] at h'
      cases hr : readResponse lib.UnmarshalUnverifiedTransactions
          (t w.net (postJSON (z.APIEndpoint ++ "unVerified.json") bytes)).1 with
      | error e =>
        rw [hr] at h h'
        rw [UnverifiedTransactions_request_error lib t z w _ e h,
          UnverifiedTransactions_request_error lib t' z w' _ e h']
      | ok resp =>
        rw [hr] at h h'
        rw [UnverifiedTransactions_request_ok lib t z w _ resp h,
          UnverifiedTransactions_request_ok lib t' z w' _ resp h']
        split_ifs <;> rfl
  · intro authority bytes hau hm hn
    have h := request_of_built lib t lib.UnmarshalTransactionInquiry z w _ _ bytes hm hn
    refine ⟨?_, fun σ' t' w' ht => ?_⟩
    · cases hr : readResponse lib.UnmarshalTransactionInquiry
          (t w.net (postJSON (z.APIEndpoint ++ "inquiry.json") bytes)).1 with
      | error e =>
        rw [hr] at h
        rw [TransactionInquiry_request_error lib t z w _ authority e hau h]
      | ok resp =>
        rw [hr] at h
        rw [TransactionInquiry_request_ok lib t z w _ authority resp hau h]
        split_ifs <;> rfl
    · have h' := request_of_built lib t' lib.UnmarshalTransactionInquiry z w' _ _ bytes hm hn
      rw [ht] at h'
      cases hr : readResponse lib.UnmarshalTransactionInquiry
          (t w.net (postJSON (z.APIEndpoint ++ "inquiry.json") bytes)).1 with
      | error e =>
        rw [hr] at h h'
        rw [TransactionInquiry_request_error lib t z w _ authority e hau h,
          TransactionInquiry_request_error lib t' z w' _ authority e hau h']
      | ok resp =>
        rw [hr] at h h'
        rw [TransactionInquiry_request_ok lib t z w _ authority resp hau h,
          TransactionInquiry_request_ok lib t' z w' _ authority resp hau h']
        split_ifs <;> rfl
  · intro authority bytes hau hm hn
    have h := request_of_built lib t lib.UnmarshalReverseTransaction z w _ _ bytes hm hn
    refine ⟨?_, fun σ' t' w' ht => ?_⟩
    · cases hr : readResponse lib.UnmarshalReverseTransaction
          (t w.net (postJSON (z.APIEndpoint ++ "reverse.json") bytes)).1 with
      | error e =>
        rw [hr] at h
        rw [ReverseTransaction_request_error lib t z w _ authority e hau h]
      | ok resp =>
        rw [hr] at h
        rw [ReverseTransaction_request_ok lib t z w _ authority resp hau h]
        split_ifs <;> rfl
    · have h' := request_of_built lib t' lib.UnmarshalReverseTransaction z w' _ _ bytes hm hn
      rw [ht] at h'
      cases hr : readResponse lib.UnmarshalReverseTransaction
          (t w.net (postJSON (z.APIEndpoint ++ "reverse.json") bytes)).1 with
      | error e =>
        rw [hr] at h h'
        rw [ReverseTransaction_request_error lib t z w _ authority e hau h,
          ReverseTransaction_request_error lib t' z w' _ authority e hau h']
      | ok resp =>
        rw [hr] at h h'
        rw [ReverseTransaction_request_ok lib t z w _ authority resp hau h,
          ReverseTransaction_request_ok lib t' z w' _ authority resp hau h']
        split_ifs <;> rfl

/-- The API base URL of a client that `New` returns. -/
theorem New_APIEndpoint (m : String) (s : Bool) (z : Zarinpal)
    (hz : New m s = (some z, none)) :
    z.APIEndpoint = "https://api.zarinpal.com/pg/v4/payment/" ∨
      z.APIEndpoint = "https://sandbox.zarinpal.com/pg/v4/payment/" := by
  rw [New_eq] at hz
  by_cases h : len m = 36
  · simp only [h, ne_eq, not_true_eq_false, if_false, Prod.mk.injEq, Option.some.injEq,
      and_true] at hz
    subst hz
    cases s <;> simp
  · simp [h] at hz

/-- A call of `http.Client.Do` whose first exchange fails, or is answered by a
response the client does not follow, is that one exchange. -/
theorem httpClientDo_of_final {τ : Type} (redirect : Redirect) (rt : Transport τ) (n : τ)
    (req : HTTPRequest)
    (h : (∃ e, (rt n req).1 = .error e) ∨
      (∃ resp, (rt n req).1 = .ok resp ∧ redirect [req] resp = none)) :
    httpClientDo redirect rt n req = rt n req := by
  unfold httpClientDo clientLoop
  rcases hrt : rt n req with ⟨r, n1⟩
  rw [hrt] at h
  rcases h with ⟨e, he⟩ | ⟨resp, hr, hnone⟩
  · simp only at he
    subst he
    rfl
  · simp only at hr
    subst hr
    simp [hnone]

/-- C9, as stated, fails: the zero-value `http.Client` follows redirects. On the
sandbox client that `New` returns, the valid payment of the scenario, sent to a
gateway that answers the request to "request.json" with status 307 and a Location,
makes one call of `client.Do` but two HTTP requests, the second to the Location, and
the results come from the answer to the second request: with code 100 there the
payment succeeds, with code -9 there it fails, although the answer to the one
request the claim names is the same redirect in both runs. -/
theorem NewPayment_redirect_counterexample :
    New merchantX36 true = (some sandboxClient, none) ∧
    NewPayment mockLib (httpClientDo mockRedirect (mockMovedGateway "code 100"))
        sandboxClient { net := [], sent := [] } 1000 "https://example.com/cb" "order #1" =
      ({ paymentURL := "https://sandbox.zarinpal.com/pg/StartPay/" ++ authorityA,
         authority := authorityA, statusCode := 100, err := none },
       { net := [postJSON "https://sandbox.zarinpal.com/pg/v4/payment/request.json"
                   scenarioBody, scenarioRedirected],
         sent := [postJSON "https://sandbox.zarinpal.com/pg/v4/payment/request.json"
                    scenarioBody] }) ∧
    NewPayment mockLib (httpClientDo mockRedirect (mockMovedGateway "code -9"))
        sandboxClient { net := [], sent := [] } 1000 "https://example.com/cb" "order #1" =
      ({ paymentURL := "", authority := "", statusCode := -9,
         err := some (errorsNew "-9") },
       { net := [postJSON "https://sandbox.zarinpal.com/pg/v4/payment/request.json"
                   scenarioBody, scenarioRedirected],
         sent := [postJSON "https://sandbox.zarinpal.com/pg/v4/payment/request.json"
                    scenarioBody] }) ∧
    (mockMovedGateway "code 100" []
        (postJSON "https://sandbox.zarinpal.com/pg/v4/payment/request.json" scenarioBody)).1 =
      .ok { StatusCode := 307, Header := [("Location", movedURL)], Body := .ok "" } ∧
    (mockMovedGateway "code -9" []
        (postJSON "https://sandbox.zarinpal.com/pg/v4/payment/request.json" scenarioBody)).1 =
      .ok { StatusCode := 307, Header := [("Location", movedURL)], Body := .ok "" } :=
  ⟨by decide, by decide, by decide, rfl, rfl⟩

/-- C9, amended: for every client `z` that `New` returns and every valid call, each
operation makes exactly one call of `client.Do`, on the POST request to
`z.APIEndpoint` followed by its fixed path ("request.json", "verify.json",
"unVerified.json", "inquiry.json", "reverse.json") with header Content-Type:
application/json, whose body is the marshalled struct carrying
`MerchantID := z.MerchantID` and the caller's arguments unchanged. The results of the
operation depend on the transport only through what that call returns: two
transports on which it returns alike give the same results. When the first exchange
of the call fails, or is answered by a response the HTTP client does not follow as a
redirect, the call is that one exchange, so that the request is the only one
issued. The standard library is taken to satisfy `LibFaithful`. -/
theorem calls_clientDo_once (lib : Lib) (m : String) (s : Bool) (z : Zarinpal)
    (hz : New m s = (some z, none)) (hlib : LibFaithful lib) :
    (∀ (amount : Int) (callbackURL description : String),
      1 ≤ amount → callbackURL ≠ "" → description ≠ "" →
      ∃ bytes : String,
        lib.Marshal
          (.paymentRequest
            { MerchantID := z.MerchantID, Amount := amount,
              Description := description, CallbackURL := callbackURL }) = .ok bytes ∧
        ∀ (σ : Type) (t : Transport σ) (w : World σ),
          (NewPayment lib t z w amount callbackURL description).2 =
            { net := (t w.net (postJSON (z.APIEndpoint ++ "request.json") bytes)).2,
              sent := w.sent ++ [postJSON (z.APIEndpoint ++ "request.json") bytes] } ∧
          ∀ (σ' : Type) (t' : Transport σ') (w' : World σ'),
            (t' w'.net (postJSON (z.APIEndpoint ++ "request.json") bytes)).1 =
              (t w.net (postJSON (z.APIEndpoint ++ "request.json") bytes)).1 →
            (NewPayment lib t' z w' amount callbackURL description).1 =
              (NewPayment lib t z w amount callbackURL description).1) ∧
    (∀ (amount : Int) (authority : String),
      0 < amount → authority ≠ "" →
      ∃ bytes : String,
        lib.Marshal
          (.paymentVerification
            { MerchantID := z.MerchantID, Amount := amount, Authority := authority }) = .ok bytes ∧
        ∀ (σ : Type) (t : Transport σ) (w : World σ),
          (VerifyTransaction lib t z w amount authority).2 =
            { net := (t w.net (postJSON (z.APIEndpoint ++ "verify.json") bytes)).2,
              sent := w.sent ++ [postJSON (z.APIEndpoint ++ "verify.json") bytes] } ∧
          ∀ (σ' : Type) (t' : Transport σ') (w' : World σ'),
            (t' w'.net (postJSON (z.APIEndpoint ++ "verify.json") bytes)).1 =
              (t w.net (postJSON (z.APIEndpoint ++ "verify.json") bytes)).1 →
            (VerifyTransaction lib t' z w' amount authority).1 =
              (VerifyTransaction lib t z w amount authority).1) ∧
    (∃ bytes : String,
        lib.Marshal
          (.unverifiedTransactions { MerchantID := z.MerchantID }) = .ok bytes ∧
        ∀ (σ : Type) (t : Transport σ) (w : World σ),
          (UnverifiedTransactions lib t z w).2 =
            { net := (t w.net (postJSON (z.APIEndpoint ++ "unVerified.json") bytes)).2,
              sent := w.sent ++ [postJSON (z.APIEndpoint ++ "unVerified.json") bytes] } ∧
          ∀ (σ' : Type) (t' : Transport σ') (w' : World σ'),
            (t' w'.net (postJSON (z.APIEndpoint ++ "unVerified.json") bytes)).1 =
              (t w.net (postJSON (z.APIEndpoint ++ "unVerified.json") bytes)).1 →
            (UnverifiedTransactions lib t' z w').1 =
              (UnverifiedTransactions lib t z w).1) ∧
    (∀ (authority : String),
      authority ≠ "" →
      ∃ bytes : String,
        lib.Marshal
          (.transactionInquiry { MerchantID := z.MerchantID, Authority := authority }) = .ok bytes ∧
        ∀ (σ : Type) (t : Transport σ) (w : World σ),
          (TransactionInquiry lib t z w authority).2 =
            { net := (t w.net (postJSON (z.APIEndpoint ++ "inquiry.json") bytes)).2,
              sent := w.sent ++ [postJSON (z.APIEndpoint ++ "inquiry.json") bytes] } ∧
          ∀ (σ' : Type) (t' : Transport σ') (w' : World σ'),
            (t' w'.net (postJSON (z.APIEndpoint ++ "inquiry.json") bytes)).1 =
              (t w.net (postJSON (z.APIEndpoint ++ "inquiry.json") bytes)).1 →
            (TransactionInquiry lib t' z w' authority).1 =
              (TransactionInquiry lib t z w authority).1) ∧
    (∀ (authority : String),
      authority ≠ "" →
      ∃ bytes : String,
        lib.Marshal
          (.transactionInquiry { MerchantID := z.MerchantID, Authority := authority }) = .ok bytes ∧
        ∀ (σ : Type) (t : Transport σ) (w : World σ),
          (ReverseTransaction lib t z w authority).2 =
            { net := (t w.net (postJSON (z.APIEndpoint ++ "reverse.json") bytes)).2,
              sent := w.sent ++ [postJSON (z.APIEndpoint ++ "reverse.json") bytes] } ∧
          ∀ (σ' : Type) (t' : Transport σ') (w' : World σ'),
            (t' w'.net (postJSON (z.APIEndpoint ++ "reverse.json") bytes)).1 =
              (t w.net (postJSON (z.APIEndpoint ++ "reverse.json") bytes)).1 →
            (ReverseTransaction lib t' z w' authority).1 =
              (ReverseTransaction lib t z w authority).1) ∧
    (∀ (τ : Type) (redirect : Redirect) (rt : Transport τ) (n : τ) (req : HTTPRequest),
      ((∃ e, (rt n req).1 = .error e) ∨
        (∃ resp, (rt n req).1 = .ok resp ∧ redirect [req] resp = none)) →
      httpClientDo redirect rt n req = rt n req) := by
  have hurl : ∀ path ∈ ["request.json", "verify.json", "unVerified.json", "inquiry.json",
      "reverse.json"], lib.requestError "POST" (z.APIEndpoint ++ path) = none := by
    intro path hpath
    rcases New_APIEndpoint m s z hz with h | h
    · rw [h]; exact hlib.2 _ (by simp) path hpath
    · rw [h]; exact hlib.2 _ (by simp) path hpath
  refine ⟨?_, ?_, ?_, ?_, ?_, fun τ redirect rt n req h =>
    httpClientDo_of_final redirect rt n req h⟩
  · intro amount callbackURL description ha hcb hd
    obtain ⟨bytes, hm⟩ := hlib.1
        (.paymentRequest
          { MerchantID := z.MerchantID, Amount := amount,
            Description := description, CallbackURL := callbackURL })
    exact ⟨bytes, hm, fun σ t w =>
      (operations_of_built lib t z w).1 amount callbackURL description bytes ha hcb hd hm (hurl "request.json" (by simp))⟩
  · intro amount authority ha hau
    obtain ⟨bytes, hm⟩ := hlib.1
        (.paymentVerification
          { MerchantID := z.MerchantID, Amount := amount, Authority := authority })
    exact ⟨bytes, hm, fun σ t w =>
      (operations_of_built lib t z w).2.1 amount authority bytes ha hau hm (hurl "verify.json" (by simp))⟩
  · obtain ⟨bytes, hm⟩ := hlib.1
        (.unverifiedTransactions { MerchantID := z.MerchantID })
    exact ⟨bytes, hm, fun σ t w =>
      (operations_of_built lib t z w).2.2.1 bytes hm (hurl "unVerified.json" (by simp))⟩
  · intro authority hau
    obtain ⟨bytes, hm⟩ := hlib.1
        (.transactionInquiry { MerchantID := z.MerchantID, Authority := authority })
    exact ⟨bytes, hm, fun σ t w =>
      (operations_of_built lib t z w).2.2.2.1 authority bytes hau hm (hurl "inquiry.json" (by simp))⟩
  · intro authority hau
    obtain ⟨bytes, hm⟩ := hlib.1
        (.transactionInquiry { MerchantID := z.MerchantID, Authority := authority })
    exact ⟨bytes, hm, fun σ t w =>
      (operations_of_built lib t z w).2.2.2.2 authority bytes hau hm (hurl "reverse.json" (by simp))⟩

/-- C9, amended, at the scenario: on the sandbox client that `New` returns, over a
gateway that answers with status 200, the payment makes the one call of `client.Do`
and the one HTTP request, to the sandbox URL of "request.json" with the marshalled
body. -/
theorem calls_clientDo_once_witness :
    New merchantX36 true = (some sandboxClient, none) ∧
    (NewPayment mockLib (httpClientDo mockRedirect (mockDirectGateway "code 100"))
        sandboxClient { net := [], sent := [] } 1000 "https://example.com/cb" "order #1").2 =
      { net := [postJSON "https://sandbox.zarinpal.com/pg/v4/payment/request.json"
                  scenarioBody],
        sent := [postJSON "https://sandbox.zarinpal.com/pg/v4/payment/request.json"
                   scenarioBody] } := by
  have hlib : LibFaithful mockLib :=
    ⟨fun data => by cases data <;> exact ⟨_, rfl⟩, fun _ _ _ _ => rfl⟩
  have h := calls_clientDo_once mockLib merchantX36 true sandboxClient (by decide) hlib
  refine ⟨by decide, ?_⟩
  obtain ⟨bytes, hm, hcall⟩ :=
    h.1 1000 "https://example.com/cb" "order #1" (by decide) (by decide) (by decide)
  have hb : bytes = scenarioBody := by
    have h2 : (Except.ok scenarioBody : Except GoError String) = .ok bytes := hm
    exact (Except.ok.inj h2).symm
  subst hb
  rw [(hcall _ (httpClientDo mockRedirect (mockDirectGateway "code 100"))
    { net := [], sent := [] }).1,
    h.2.2.2.2.2 _ mockRedirect (mockDirectGateway "code 100") [] _
      (Or.inr ⟨{ StatusCode := 200, Body := .ok "code 100" }, rfl, rfl⟩)]
  rfl

/-! ## C10: the status code the operations return -/

/-- C10: the operations do not agree on the `statusCode` of a failed gateway call.
For every valid call whose decoded response has a status code `c` other than 100,
`VerifyTransaction`, like `NewPayment`, returns `statusCode = c`, whereas
`UnverifiedTransactions`, `TransactionInquiry` and `ReverseTransaction` return
`statusCode = 0` and carry `c` in the error message only. For all five operations and
every outcome (validation failure, helper failure, any decoded status), the error is
absent if and only if the returned `statusCode` is 100. -/
theorem statusCode_of_outcome {σ : Type} (lib : Lib) (t : Transport σ) (z : Zarinpal)
    (w : World σ) :
    (∀ (c : Int) (w1 : World σ), c ≠ 100 →
      (∀ (amount : Int) (callbackURL description : String) (resp : paymentRequestResp),
        1 ≤ amount → callbackURL ≠ "" → description ≠ "" →
        request lib t lib.UnmarshalPaymentRequest z w (z.APIEndpoint ++ "request.json")
          (.paymentRequest { MerchantID := z.MerchantID, Amount := amount,
                             Description := description, CallbackURL := callbackURL })
          = (.ok resp, w1) →
        resp.Data.Status = c →
        (NewPayment lib t z w amount callbackURL description).1.statusCode = c) ∧
      (∀ (amount : Int) (authority : String) (resp : paymentVerificationResp),
        0 < amount → authority ≠ "" →
        request lib t lib.UnmarshalPaymentVerification z w (z.APIEndpoint ++ "verify.json")
          (.paymentVerification { MerchantID := z.MerchantID, Amount := amount,
                                  Authority := authority })
          = (.ok resp, w1) →
        resp.Data.Status = c →
        (VerifyTransaction lib t z w amount authority).1.statusCode = c) ∧
      (∀ (resp : unverifiedTransactionsResp),
        request lib t lib.UnmarshalUnverifiedTransactions z w
          (z.APIEndpoint ++ "unVerified.json")
          (.unverifiedTransactions { MerchantID := z.MerchantID }) = (.ok resp, w1) →
        resp.Data.Status = c →
        (UnverifiedTransactions lib t z w).1.statusCode = 0 ∧
        (UnverifiedTransactions lib t z w).1.err = some (errorsNew (Itoa c))) ∧
      (∀ (authority : String) (resp : transactionInquiryResp),
        authority ≠ "" →
        request lib t lib.UnmarshalTransactionInquiry z w (z.APIEndpoint ++ "inquiry.json")
          (.transactionInquiry { MerchantID := z.MerchantID, Authority := authority })
          = (.ok resp, w1) →
        resp.Data.Status = c →
        (TransactionInquiry lib t z w authority).1.statusCode = 0 ∧
        (TransactionInquiry lib t z w authority).1.err = some (errorsNew (Itoa c))) ∧
      (∀ (authority : String) (resp : reverseTransactionResp),
        authority ≠ "" →
        request lib t lib.UnmarshalReverseTransaction z w (z.APIEndpoint ++ "reverse.json")
          (.transactionInquiry { MerchantID := z.MerchantID, Authority := authority })
          = (.ok resp, w1) →
        resp.Data.Status = c →
        (ReverseTransaction lib t z w authority).1.statusCode = 0 ∧
        (ReverseTransaction lib t z w authority).1.err = some (errorsNew (Itoa c)))) ∧
    (∀ (amount : Int) (callbackURL description : String),
      (NewPayment lib t z w amount callbackURL description).1.err = none ↔
        (NewPayment lib t z w amount callbackURL description).1.statusCode = 100) ∧
    (∀ (amount : Int) (authority : String),
      (VerifyTransaction lib t z w amount authority).1.err = none ↔
        (VerifyTransaction lib t z w amount authority).1.statusCode = 100) ∧
    ((UnverifiedTransactions lib t z w).1.err = none ↔
        (UnverifiedTransactions lib t z w).1.statusCode = 100) ∧
    (∀ (authority : String),
      (TransactionInquiry lib t z w authority).1.err = none ↔
        (TransactionInquiry lib t z w authority).1.statusCode = 100) ∧
    (∀ (authority : String),
      (ReverseTransaction lib t z w authority).1.err = none ↔
        (ReverseTransaction lib t z w authority).1.statusCode = 100) := by
  refine ⟨fun c w1 hc => ⟨?_, ?_, ?_, ?_, ?_⟩, ?_, ?_, ?_, ?_, ?_⟩
  · intro amount callbackURL description resp ha hcb hd hreq hs
    rw [NewPayment_request_ok lib t z w w1 amount callbackURL description resp ha hcb hd hreq]
    simp [hs, hc]
  · intro amount authority resp ha hau hreq hs
    rw [VerifyTransaction_request_ok lib t z w w1 amount authority resp ha hau hreq]
    simp [hs, hc]
  · intro resp hreq hs
    rw [UnverifiedTransactions_request_ok lib t z w w1 resp hreq]
    simp [hs, hc]
  · intro authority resp hau hreq hs
    rw [TransactionInquiry_request_ok lib t z w w1 authority resp hau hreq]
    simp [hs, hc]
  · intro authority resp hau hreq hs
    rw [ReverseTransaction_request_ok lib t z w w1 authority resp hau hreq]
    simp [hs, hc]
  · intro amount callbackURL description
    unfold NewPayment
    split_ifs
    · simp
    · simp
    · simp
    · rcases hreq : request lib t lib.UnmarshalPaymentRequest z w
          (z.APIEndpoint ++ "request.json")
          (.paymentRequest { MerchantID := z.MerchantID, Amount := amount,
                             Description := description, CallbackURL := callbackURL })
        with ⟨e | resp, w1⟩
      · simp [hreq]
      · by_cases hs : resp.Data.Status = 100 <;> simp [hreq, hs]
  · intro amount authority
    unfold VerifyTransaction
    split_ifs
    · simp
    · simp
    · rcases hreq : request lib t lib.UnmarshalPaymentVerification z w
          (z.APIEndpoint ++ "verify.json")
          (.paymentVerification { MerchantID := z.MerchantID, Amount := amount,
                                  Authority := authority })
        with ⟨e | resp, w1⟩
      · simp [hreq]
      · by_cases hs : resp.Data.Status = 100 <;> simp [hreq, hs]
  · unfold UnverifiedTransactions
    rcases hreq : request lib t lib.UnmarshalUnverifiedTransactions z w
        (z.APIEndpoint ++ "unVerified.json")
        (.unverifiedTransactions { MerchantID := z.MerchantID })
      with ⟨e | resp, w1⟩
    · simp [hreq]
    · by_cases hs : resp.Data.Status = 100 <;> simp [hreq, hs]
  · intro authority
    unfold TransactionInquiry
    split_ifs
    · simp
    · rcases hreq : request lib t lib.UnmarshalTransactionInquiry z w
          (z.APIEndpoint ++ "inquiry.json")
          (.transactionInquiry { MerchantID := z.MerchantID, Authority := authority })
        with ⟨e | resp, w1⟩
      · simp [hreq]
      · by_cases hs : resp.Data.Status = 100 <;> simp [hreq, hs]
  · intro authority
    unfold ReverseTransaction
    split_ifs
    · simp
    · rcases hreq : request lib t lib.UnmarshalReverseTransaction z w
          (z.APIEndpoint ++ "reverse.json")
          (.transactionInquiry { MerchantID := z.MerchantID, Authority := authority })
        with ⟨e | resp, w1⟩
      · simp [hreq]
      · by_cases hs : resp.Data.Status = 100 <;> simp [hreq, hs]

/-- C10 at concrete inputs: answered with code -9, the verification returns
`statusCode = -9` while the reversal returns `statusCode = 0` with the error "-9";
and a payment that fails validation has an error and `statusCode = 0`. -/
theorem statusCode_of_outcome_witness :
    (VerifyTransaction mockLib (mockGateway "code -9") sandboxClient world0 1000
        authorityA).1.statusCode = -9 ∧
    ((ReverseTransaction mockLib (mockGateway "code -9") sandboxClient world0
        authorityA).1.statusCode = 0 ∧
      (ReverseTransaction mockLib (mockGateway "code -9") sandboxClient world0
        authorityA).1.err = some (errorsNew (Itoa (-9)))) ∧
    ¬ (NewPayment mockLib (mockGateway "code 100") sandboxClient world0 0 "" "").1.statusCode
        = 100 :=
  ⟨((statusCode_of_outcome mockLib (mockGateway "code -9") sandboxClient world0).1 (-9)
      _ (by decide)).2.1 1000 authorityA
      { Data := { Status := -9, Message := "", CardHash := "", CardPan := "", RefID := "",
                  FeeType := "", Fee := 0 }, Errors := [] }
      (by decide) (by decide) rfl rfl,
   ((statusCode_of_outcome mockLib (mockGateway "code -9") sandboxClient world0).1 (-9)
      _ (by decide)).2.2.2.2 authorityA { Data := { Status := -9, Message := "" }, Errors := [] }
      (by decide) rfl rfl,
   fun h => absurd
     (((statusCode_of_outcome mockLib (mockGateway "code 100") sandboxClient world0).2.1
       0 "" "").mpr h) (by decide)⟩

end GoZarinpal
